import Mathlib

/-!
Verification of grid3-go: cluster workload builder, gateway loaders and the deployer.

A shallow embedding of `workloads/k8s.go`, `loader/gateway_name.go` and
`loader/gateway_fqdn.go`, together with a model of the deployer that
`tests/deployer_tests/deployer_test.go` drives.

Conventions of the embedding.

* A Go function that may hit a run-time panic (nil dereference, unchecked type
  assertion) returns `Outcome α`; `Outcome.ret a` is a normal return.
* A Go `error` is an `Option GoError` (`none` is `nil`); functions returning
  `(T, error)` return a pair.
* `uint32`/`uint64` identifiers are `Nat`; where the source converts between
  integer widths the reduction modulo `2 ^ w` is written out.
* `json.RawMessage` produced by `gridtypes.MustMarshal v` is represented by the
  marshalled value `v` itself (`Payload`); decoding of received bytes is done
  by the zos library and enters as a parameter (`Zos`).
* `map[uint32][]Workload` is a finite-support function `Nat → Option (List Workload)`.
* `log.Printf` only writes to the process log and is not modelled.
-/

namespace Grid3

/-! ## Errors (`github.com/pkg/errors`) -/

/-- Go error values built with `errors.New` and `errors.Wrap`/`errors.Wrapf`. -/
inductive GoError where
  | new (msg : String)
  | wrap (cause : GoError) (msg : String)
  deriving DecidableEq, Repr

namespace GoError

/-- The `Error()` string: a wrapped error prints its message, a colon and the cause. -/
def Error : GoError → String
  | new msg => msg
  | wrap cause msg => msg ++ ": " ++ cause.Error

/-- The `errors.Is` test: `target` occurs on the cause chain of the error. -/
def Is : GoError → GoError → Bool
  | new msg, target => decide (new msg = target)
  | wrap cause msg, target => decide (wrap cause msg = target) || cause.Is target

end GoError

/-- The sentinel `ErrDuplicateName` of `workloads/k8s.go`. -/
def ErrDuplicateName : GoError := GoError.new "node names are not unique"

/-- Result of running a Go function: a normal return or a run-time panic. -/
inductive Outcome (α : Type) where
  | ret (a : α)
  | panic
  deriving DecidableEq, Repr

/-! ## Grid types (`gridtypes`, `zos`) -/

/-- Payload `zos.ZMount`; `Size` is a `gridtypes.Unit` (uint64). -/
structure ZMount where
  Size : Nat
  deriving DecidableEq, Repr

/-- Payload `zos.PublicIP`. -/
structure PublicIP where
  V4 : Bool
  V6 : Bool
  deriving DecidableEq, Repr

/-- The value `net.ParseIP text`, kept symbolic. -/
structure NetIP where
  parsedFrom : String
  deriving DecidableEq, Repr

/-- One entry of `zos.MachineNetwork.Interfaces`. -/
structure MachineInterface where
  Network : String
  IP : NetIP
  deriving DecidableEq, Repr

/-- Network section `zos.MachineNetwork` of a machine. -/
structure MachineNetwork where
  PublicIP : String
  Planetary : Bool
  Interfaces : List MachineInterface
  deriving DecidableEq, Repr

/-- Capacity section `zos.MachineCapacity`: `CPU` is a uint8, `Memory` a uint64. -/
structure MachineCapacity where
  CPU : Nat
  Memory : Nat
  deriving DecidableEq, Repr

/-- One entry of `zos.ZMachine.Mounts`. -/
structure MachineMount where
  Name : String
  Mountpoint : String
  deriving DecidableEq, Repr

/-- A Go `map[string]string`, kept as a key/value list with distinct keys. -/
abbrev StrMap := List (String × String)

/-- Assignment `m[key] = val`: overwrite the entry when the key is present, add it otherwise. -/
def StrMap.set : StrMap → String → String → StrMap
  | [], key, val => [(key, val)]
  | (k, v) :: rest, key, val =>
    if k = key then (k, val) :: rest else (k, v) :: StrMap.set rest key val

/-- Payload `zos.ZMachine` (the fields the builder fills in). -/
structure ZMachine where
  FList : String
  Network : MachineNetwork
  ComputeCapacity : MachineCapacity
  Entrypoint : String
  Mounts : List MachineMount
  Env : StrMap
  deriving DecidableEq, Repr

/-- Payload `zos.GatewayNameProxy`. -/
structure ZosGatewayNameProxy where
  Name : String
  TLSPassthrough : Bool
  Backends : List String
  deriving DecidableEq, Repr

/-- Payload `zos.GatewayFQDNProxy`. -/
structure ZosGatewayFQDNProxy where
  FQDN : String
  TLSPassthrough : Bool
  Backends : List String
  deriving DecidableEq, Repr

/-- Result payload `zos.GatewayProxyResult`. -/
structure GatewayProxyResult where
  FQDN : String
  deriving DecidableEq, Repr

/-- A `json.RawMessage`: either the value handed to `gridtypes.MustMarshal`, or
bytes of unknown origin. -/
inductive Payload where
  | empty
  | zmount (d : ZMount)
  | publicIP (d : PublicIP)
  | zmachine (d : ZMachine)
  | gatewayName (d : ZosGatewayNameProxy)
  | gatewayFQDN (d : ZosGatewayFQDNProxy)
  | proxyResult (d : GatewayProxyResult)
  | bytes (raw : String)
  deriving DecidableEq, Repr

/-- Marshalling `gridtypes.MustMarshal`: the message is represented by the value. -/
def MustMarshal (p : Payload) : Payload := p

/-- Workload type tags `gridtypes.WorkloadType`. -/
abbrev WorkloadType := String

/-- Tag `zos.ZMountType`. -/
def ZMountType : WorkloadType := "zmount"
/-- Tag `zos.PublicIPType`. -/
def PublicIPType : WorkloadType := "ip"
/-- Tag `zos.ZMachineType`. -/
def ZMachineType : WorkloadType := "zmachine"
/-- Tag `zos.GatewayNameProxyType`. -/
def GatewayNameProxyType : WorkloadType := "gateway-name-proxy"
/-- Tag `zos.GatewayFQDNProxyType`. -/
def GatewayFQDNProxyType : WorkloadType := "gateway-fqdn-proxy"

/-- States `gridtypes.ResultState`; `pending` is the zero value carried by a
workload the node agent has not answered for yet. -/
inductive ResultState where
  | pending
  | ok
  | error
  deriving DecidableEq, Repr

/-- Record `gridtypes.Result`. -/
structure Result where
  State : ResultState := ResultState.pending
  Data : Payload := Payload.empty
  deriving DecidableEq, Repr

/-- Record `gridtypes.Workload`. -/
structure Workload where
  Version : Nat := 0
  Name : String
  Type_ : WorkloadType
  Data : Payload
  Description : String := ""
  Result : Result := {}
  deriving DecidableEq, Repr

/-- Dynamic value returned by `Workload.WorkloadData()`: a pointer to one of the
registered payload types. -/
inductive WorkloadData where
  | zmount (d : ZMount)
  | publicIP (d : PublicIP)
  | zmachine (d : ZMachine)
  | gatewayName (d : ZosGatewayNameProxy)
  | gatewayFQDN (d : ZosGatewayFQDNProxy)
  | other (tag : String)
  deriving DecidableEq, Repr

/-- The decoding functions of the zos and json libraries that the loaders call. -/
structure Zos where
  /-- Method `wl.WorkloadData()`. -/
  WorkloadData : Workload → Except GoError WorkloadData
  /-- Call `json.Unmarshal(data, &result)` with `result` a `zos.GatewayProxyResult`. -/
  UnmarshalGatewayProxyResult : Payload → Except GoError GatewayProxyResult

/-- A Go `map[uint32][]gridtypes.Workload`. -/
abbrev WorkloadMap := Nat → Option (List Workload)

/-- Read `m[key]`: the zero value (nil slice) when the key is absent. -/
def WorkloadMap.get (m : WorkloadMap) (key : Nat) : List Workload := (m key).getD []

/-- Assignment `m[key] = val`. -/
def WorkloadMap.set (m : WorkloadMap) (key : Nat) (val : List Workload) : WorkloadMap :=
  fun n => if n = key then some val else m n

/-- The empty map literal. -/
def WorkloadMap.empty : WorkloadMap := fun _ => none

/-- Interface `deployer.DeploymentManager` (the two methods used here) over a
manager state `σ`. -/
structure DeploymentManager (σ : Type) where
  SetWorkloads : WorkloadMap → σ → Option GoError × σ
  GetWorkload : Nat → String → σ → Workload × Option GoError

/-! ## `workloads/k8s.go` -/

/-- Record `K8sNodeData`. -/
structure K8sNodeData where
  Name : String
  Node : Nat
  DiskSize : Int
  PublicIP : Bool
  PublicIP6 : Bool
  Planetary : Bool
  IP : String
  Cpu : Int
  Memory : Int
  deriving DecidableEq, Repr

/-- Record `K8sCluster`; `Master` is a pointer and may be nil. -/
structure K8sCluster where
  Master : Option K8sNodeData
  Workers : List K8sNodeData
  Token : String
  SSHKey : String
  NetworkName : String
  deriving DecidableEq, Repr

/-- Constant `gridtypes.Gigabyte`. -/
def Gigabyte : Nat := 2 ^ 30
/-- Constant `gridtypes.Megabyte`. -/
def Megabyte : Nat := 2 ^ 20

/-- Conversion of a Go `int` to a 64-bit unsigned value. -/
def toUint64 (i : Int) : Nat := (i % 2 ^ 64).toNat

/-- Conversion of a Go `int` to `uint8`. -/
def toUint8 (i : Int) : Nat := (i % 2 ^ 8).toNat

/-- Product of two `gridtypes.Unit` values (uint64, wrapping). -/
def mulUnit (a b : Nat) : Nat := (a * b) % 2 ^ 64

/-- Modelled from the spec: `constructPublicIPWorkload` belongs to the workloads
package but is not among the available sources; it builds the public-ip workload
carrying the given name and the two address-family flags. -/
def constructPublicIPWorkload (workloadName : String) (ipv4 ipv6 : Bool) : Workload :=
  { Version := 0
    Name := workloadName
    Type_ := PublicIPType
    Data := MustMarshal (Payload.publicIP { V4 := ipv4, V6 := ipv6 }) }

/-- The loop of `validateNames` over the workers, `names` being the set built so far. -/
def validateNamesLoop : List String → List K8sNodeData → Option GoError
  | _, [] => none
  | names, worker :: rest =>
    if worker.Name ∈ names then
      some (GoError.wrap ErrDuplicateName ("name " ++ worker.Name ++ " is duplicated"))
    else validateNamesLoop (worker.Name :: names) rest

/-- Method `K8sCluster.validateNames`. -/
def K8sCluster.validateNames (k : K8sCluster) : Outcome (Option GoError) :=
  match k.Master with
  | none => Outcome.panic
  | some master => Outcome.ret (validateNamesLoop [master.Name] k.Workers)

/-- The environment map literal of `GenerateK8sWorkload`. -/
def k8sEnvVars (k : K8sNodeData) (deployer : K8sCluster) : StrMap :=
  [ ("SSH_KEY", deployer.SSHKey),
    ("K3S_TOKEN", deployer.Token),
    ("K3S_DATA_DIR", "/mydisk"),
    ("K3S_FLANNEL_IFACE", "eth0"),
    ("K3S_NODE_NAME", k.Name),
    ("K3S_URL", "") ]

/-- Method `K8sNodeData.GenerateK8sWorkload`; the `manager` argument is unused by
the source and omitted. -/
def K8sNodeData.GenerateK8sWorkload (k : K8sNodeData) (deployer : K8sCluster) (worker : Bool) :
    Outcome (List Workload) :=
  let diskName := k.Name ++ "disk"
  let workloads : List Workload := []
  let diskWorkload : Workload :=
    { Name := diskName
      Version := 0
      Type_ := ZMountType
      Description := ""
      Data := MustMarshal (Payload.zmount { Size := mulUnit (toUint64 k.DiskSize) Gigabyte }) }
  let workloads := workloads ++ [diskWorkload]
  let publicIPName := if k.PublicIP || k.PublicIP6 then k.Name ++ "ip" else ""
  let workloads :=
    if k.PublicIP || k.PublicIP6 then
      workloads ++ [constructPublicIPWorkload publicIPName k.PublicIP k.PublicIP6]
    else workloads
  let envVars := k8sEnvVars k deployer
  let finish (envVars : StrMap) : Outcome (List Workload) :=
    let workload : Workload :=
      { Version := 0
        Name := k.Name
        Type_ := ZMachineType
        Data := MustMarshal (Payload.zmachine
          { FList := "https://hub.grid.tf/tf-official-apps/threefoldtech-k3s-latest.flist"
            Network :=
              { Interfaces := [{ Network := deployer.NetworkName, IP := { parsedFrom := k.IP } }]
                PublicIP := publicIPName
                Planetary := k.Planetary }
            ComputeCapacity :=
              { CPU := toUint8 k.Cpu
                Memory := mulUnit (toUint64 k.Memory) Megabyte }
            Entrypoint := "/sbin/zinit init"
            Mounts := [{ Name := diskName, Mountpoint := "/mydisk" }]
            Env := envVars }) }
    Outcome.ret (workloads ++ [workload])
  if worker then
    match deployer.Master with
    | none => Outcome.panic
    | some master => finish (envVars.set "K3S_URL" (toString master.Node ++ ":" ++ master.Name))
  else finish envVars

/-- One `workloads[n] = append(workloads[n], generated...)` step of `Stage`. -/
def stageNode (k : K8sCluster) (worker : Bool) (acc : Outcome WorkloadMap) (node : K8sNodeData) :
    Outcome WorkloadMap :=
  match acc with
  | Outcome.panic => Outcome.panic
  | Outcome.ret workloads =>
    match node.GenerateK8sWorkload k worker with
    | Outcome.panic => Outcome.panic
    | Outcome.ret generated =>
      Outcome.ret (workloads.set node.Node (workloads.get node.Node ++ generated))

/-- The map `Stage` builds before handing it to the manager: the master first,
then the workers in list order. -/
def K8sCluster.stagedWorkloads (k : K8sCluster) (master : K8sNodeData) : Outcome WorkloadMap :=
  k.Workers.foldl (stageNode k true) (stageNode k false (Outcome.ret WorkloadMap.empty) master)

/-- Method `K8sCluster.Stage`: returns the error and the manager state after the call. -/
def K8sCluster.Stage {σ : Type} (k : K8sCluster) (manager : DeploymentManager σ) (s : σ) :
    Outcome (Option GoError × σ) :=
  match k.validateNames with
  | Outcome.panic => Outcome.panic
  | Outcome.ret (some err) => Outcome.ret (some err, s)
  | Outcome.ret none =>
    match k.Master with
    | none => Outcome.panic
    | some master =>
      match k.stagedWorkloads master with
      | Outcome.panic => Outcome.panic
      | Outcome.ret workloads =>
        match manager.SetWorkloads workloads s with
        | (some err, s1) => Outcome.ret (some err, s1)
        | (none, s1) => Outcome.ret (none, s1)

/-- The zero value of `gridtypes.Workload`. -/
def Workload.zero : Workload := { Name := "", Type_ := "", Data := Payload.empty }

/-- A manager that records every map handed to `SetWorkloads` and answers with
`resp`; its state is the list of recorded calls, oldest first. `GetWorkload`
answers from the table `known` and fails for a workload that is not in it. -/
def recordingManager (resp : WorkloadMap → Option GoError)
    (known : Nat → String → Option Workload) : DeploymentManager (List WorkloadMap) :=
  { SetWorkloads := fun w log => (resp w, log ++ [w])
    GetWorkload := fun nodeID name _ =>
      match known nodeID name with
      | some wl => (wl, none)
      | none => (Workload.zero, some (GoError.new "workload not found")) }

/-! ## `loader/gateway_name.go`, `loader/gateway_fqdn.go` -/

/-- Record `workloads.GatewayNameProxy`, with the fields the loader and the tests
fill in. -/
structure GatewayNameProxy where
  Name : String := ""
  TLSPassthrough : Bool := false
  Backends : List String := []
  FQDN : String := ""
  deriving DecidableEq, Repr

/-- Record `workloads.GatewayFQDNProxy`, with the fields the loader and the tests
fill in. -/
structure GatewayFQDNProxy where
  NodeId : Nat := 0
  Name : String := ""
  TLSPassthrough : Bool := false
  Backends : List String := []
  FQDN : String := ""
  deriving DecidableEq, Repr

/-- Function `LoadGatewayNameFromGrid`. -/
def LoadGatewayNameFromGrid {σ : Type} (zos : Zos) (manager : DeploymentManager σ) (s : σ)
    (nodeID : Nat) (name : String) : Outcome (GatewayNameProxy × Option GoError) :=
  match manager.GetWorkload nodeID name s with
  | (_, some err) =>
    Outcome.ret ({}, some (GoError.wrap err
      ("couldn't get workload from node " ++ toString nodeID)))
  | (wl, none) =>
    match zos.UnmarshalGatewayProxyResult wl.Result.Data with
    | Except.error err => Outcome.ret ({}, some (GoError.wrap err "error unmarshalling json"))
    | Except.ok result =>
      match zos.WorkloadData wl with
      | Except.error err =>
        Outcome.ret ({}, some (GoError.wrap err "failed to get workload data"))
      | Except.ok dataI =>
        match dataI with
        | WorkloadData.gatewayName data =>
          Outcome.ret
            ({ Name := data.Name
               TLSPassthrough := data.TLSPassthrough
               Backends := data.Backends
               FQDN := result.FQDN }, none)
        | _ => Outcome.ret ({}, some (GoError.new "couldn't cast workload data"))

/-- Function `GatewayFQDNProxyFromZosWorkload`; the type assertion on the decoded
data is the single-result form, which panics on any other dynamic type. -/
def GatewayFQDNProxyFromZosWorkload {σ : Type} (zos : Zos) (manager : DeploymentManager σ)
    (s : σ) (nodeID : Nat) (name : String) : Outcome (GatewayFQDNProxy × Option GoError) :=
  match manager.GetWorkload nodeID name s with
  | (_, some err) =>
    Outcome.ret ({}, some (GoError.wrap err
      ("couldn't get workload from node " ++ toString nodeID)))
  | (wl, none) =>
    match zos.WorkloadData wl with
    | Except.error err =>
      Outcome.ret ({}, some (GoError.wrap err "failed to get workload data"))
    | Except.ok dataI =>
      match dataI with
      | WorkloadData.gatewayFQDN data =>
        Outcome.ret
          ({ NodeId := nodeID
             Name := wl.Name
             TLSPassthrough := data.TLSPassthrough
             Backends := data.Backends
             FQDN := data.FQDN }, none)
      | _ => Outcome.panic

/-- A decoder in the manner of the zos library: the type tag selects the payload
type, and a payload of another shape does not decode. -/
def sampleZos : Zos :=
  { WorkloadData := fun wl =>
      match wl.Data with
      | Payload.gatewayName d =>
        if wl.Type_ = GatewayNameProxyType then Except.ok (WorkloadData.gatewayName d)
        else Except.error (GoError.new "invalid payload")
      | Payload.gatewayFQDN d =>
        if wl.Type_ = GatewayFQDNProxyType then Except.ok (WorkloadData.gatewayFQDN d)
        else Except.error (GoError.new "invalid payload")
      | Payload.zmount d =>
        if wl.Type_ = ZMountType then Except.ok (WorkloadData.zmount d)
        else Except.error (GoError.new "invalid payload")
      | Payload.publicIP d =>
        if wl.Type_ = PublicIPType then Except.ok (WorkloadData.publicIP d)
        else Except.error (GoError.new "invalid payload")
      | Payload.zmachine d =>
        if wl.Type_ = ZMachineType then Except.ok (WorkloadData.zmachine d)
        else Except.error (GoError.new "invalid payload")
      | _ => Except.error (GoError.new "invalid payload")
    UnmarshalGatewayProxyResult := fun data =>
      match data with
      | Payload.proxyResult r => Except.ok r
      | _ => Except.error (GoError.new "unexpected end of JSON input") }

/-- A gateway-name workload called `gw` whose result carries a domain name. -/
def nameProxyWorkload : Workload :=
  { Name := "gw", Type_ := GatewayNameProxyType
    Data := Payload.gatewayName
      { Name := "name", TLSPassthrough := true, Backends := ["http://1.1.1.1"] }
    Result := { State := ResultState.ok, Data := Payload.proxyResult { FQDN := "name.gent01.dev" } } }

/-- A gateway-FQDN workload called `fqdn`. -/
def fqdnProxyWorkload : Workload :=
  { Name := "fqdn", Type_ := GatewayFQDNProxyType
    Data := Payload.gatewayFQDN
      { FQDN := "a.b.com", TLSPassthrough := false, Backends := ["http://1.1.1.1"] }
    Result := { State := ResultState.ok, Data := Payload.proxyResult { FQDN := "" } } }

/-- Workloads known on node 7: `gw` and `fqdn`. -/
def knownOnNode7 (nodeID : Nat) (name : String) : Option Workload :=
  if nodeID = 7 then
    if name = "gw" then some nameProxyWorkload
    else if name = "fqdn" then some fqdnProxyWorkload
    else none
  else none

/-- A manager holding the two gateway workloads on node 7. -/
def gatewayManager : DeploymentManager (List WorkloadMap) :=
  recordingManager (fun _ => none) knownOnNode7

/-! ## The deployer (spec §4.2)

The deployer package is driven by `tests/deployer_tests/deployer_test.go` but is
not among the sources; the definitions of this section follow the specification,
and take from the test what the test fixes (the bus method names, the node
client twins, the contract IDs). The per-node tasks, which the specification
runs concurrently, only interact with the outside through the services of
`DeployerEnv`; the model records, for every node, the sequence of calls its task
makes. Every call is made through one of the functions `chainCreate`,
`chainUpdate`, `chainCancel`, `resolveClient` and `nodeCall`, which return the
record of the call together with its answer. -/

/-- Record `gridtypes.Deployment` (spec §3): owner twin, version, contract ID,
ordered workloads and signature. -/
structure Deployment where
  Version : Nat := 0
  TwinID : Nat
  ContractID : Nat := 0
  Workloads : List Workload
  Signature : String := ""
  deriving DecidableEq, Repr

/-- Bus method of the create-deployment RPC, as the deployer test expects it (§6
names it without the leading `zos.`). -/
def deployMethod : String := "zos.deployment.deploy"
/-- Bus method of the update-deployment RPC. -/
def updateMethod : String := "zos.deployment.update"
/-- Bus method of the delete-deployment RPC. -/
def deleteMethod : String := "zos.deployment.delete"
/-- Bus method of the get-deployment RPC, as the deployer test expects it. -/
def getMethod : String := "zos.deployment.get"

/-- Modelled from the spec: the ways one RPC of a node client of the missing
deployer can fail (§4.4, §5, §7): a transport failure, which is retryable, an
application-level error in the response, and the cancellation of the call by the
caller deadline. -/
inductive CallError where
  | transport (e : GoError)
  | application (e : GoError)
  | cancelled
  deriving DecidableEq, Repr

/-- The distinct error a cancelled task reports (§5). -/
def ErrCancelled : GoError := GoError.new "deployment cancelled"

/-- The error of a poll that exceeded its budget while results were pending (§7). -/
def ErrTimeout : GoError := GoError.new "timed out waiting for the deployment"

/-- The node-level error a failed RPC is surfaced as. -/
def CallError.toError : CallError → GoError
  | CallError.transport e => GoError.wrap e "transport failure"
  | CallError.application e => e
  | CallError.cancelled => ErrCancelled

/-- Modelled from the spec: the services consumed by the missing deployer (§2,
§4.3 to §4.5): signer and challenge hash, the chain client creating, updating and
cancelling node contracts, the node client pool (`getNodeClient node` answers the
twin of the node agent), the node client (`clientCall twin method body attempt`
performs one RPC; `attempt` counts the earlier calls of that method by the task),
and the validator. -/
structure DeployerEnv where
  sign : String → Deployment → Deployment
  challengeHash : Deployment → String
  createNodeContract : String → Nat → String → Except GoError Nat
  updateNodeContract : String → Nat → String → Except GoError Nat
  cancelContract : String → Nat → Option GoError
  getNodeClient : Nat → Except GoError Nat
  clientCall : Nat → String → Deployment → Nat → Except CallError Deployment
  validate : Deployment → Deployment → Option GoError

/-- One RPC to a node as the caller sees it: resolve the client of the node, then
call it; any failure is an error. -/
def DeployerEnv.call (env : DeployerEnv) (node : Nat) (method : String) (body : Deployment)
    (attempt : Nat) : Except GoError Deployment :=
  match env.getNodeClient node with
  | Except.error e => Except.error (GoError.wrap e "failed to get node client")
  | Except.ok twin =>
    match env.clientCall twin method body attempt with
    | Except.error e => Except.error e.toError
    | Except.ok answer => Except.ok answer

/-- Modelled from the spec: the calls a task of the missing deployer makes on the
chain client, the node client pool and the node agent (§4.2, §4.4, §6). -/
inductive Event where
  | contractCreate (identity : String) (node : Nat) (hash : String)
  | contractUpdate (identity : String) (contractID : Nat) (hash : String)
  | contractCancel (identity : String) (contractID : Nat)
  | nodeClient (node : Nat)
  | rpc (node : Nat) (twin : Nat) (method : String)
  deriving DecidableEq, Repr

/-- A contract-create call. -/
def Event.isCreate : Event → Bool
  | Event.contractCreate _ _ _ => true
  | _ => false

/-- A contract-update call or an update-deployment RPC. -/
def Event.isUpdate : Event → Bool
  | Event.contractUpdate _ _ _ => true
  | Event.rpc _ _ method => decide (method = updateMethod)
  | _ => false

/-- A create-deployment RPC. -/
def Event.isDeployPush : Event → Bool
  | Event.rpc _ _ method => decide (method = deployMethod)
  | _ => false

/-- The contract-create call: its record and its answer. -/
def chainCreate (env : DeployerEnv) (identity : String) (node : Nat) (hash : String) :
    Event × Except GoError Nat :=
  (Event.contractCreate identity node hash, env.createNodeContract identity node hash)

/-- The contract-update call: its record and its answer. -/
def chainUpdate (env : DeployerEnv) (identity : String) (contractID : Nat) (hash : String) :
    Event × Except GoError Nat :=
  (Event.contractUpdate identity contractID hash,
    env.updateNodeContract identity contractID hash)

/-- The contract-cancel call: its record and its answer. -/
def chainCancel (env : DeployerEnv) (identity : String) (contractID : Nat) :
    Event × Option GoError :=
  (Event.contractCancel identity contractID, env.cancelContract identity contractID)

/-- The call `GetNodeClient`: its record and its answer. -/
def resolveClient (env : DeployerEnv) (node : Nat) : Event × Except GoError Nat :=
  (Event.nodeClient node, env.getNodeClient node)

/-- One RPC on a resolved node client: its record and its answer. -/
def nodeCall (env : DeployerEnv) (node twin : Nat) (method : String) (body : Deployment)
    (attempt : Nat) : Event × Except CallError Deployment :=
  (Event.rpc node twin method, env.clientCall twin method body attempt)

/-- Every workload result has left the pending state. -/
def Deployment.settled (dl : Deployment) : Bool :=
  dl.Workloads.all (fun w => decide (w.Result.State ≠ ResultState.pending))

/-- Modelled from the spec: step 3 of the missing `Deploy` (§4.2), one push RPC
with bounded retry: a transport failure is retried while `retries` allows and is
surfaced afterwards; an application error or a cancellation ends the task at
once. -/
def pushDeployment (env : DeployerEnv) (node twin : Nat) (method : String) (dl : Deployment) :
    Nat → Nat → List Event × Except GoError Unit
  | attempt, 0 =>
    match (nodeCall env node twin method dl attempt).2 with
    | Except.ok _ => ([(nodeCall env node twin method dl attempt).1], Except.ok ())
    | Except.error e => ([(nodeCall env node twin method dl attempt).1], Except.error e.toError)
  | attempt, retries + 1 =>
    match (nodeCall env node twin method dl attempt).2 with
    | Except.ok _ => ([(nodeCall env node twin method dl attempt).1], Except.ok ())
    | Except.error (CallError.transport _) =>
      ((nodeCall env node twin method dl attempt).1 ::
          (pushDeployment env node twin method dl (attempt + 1) retries).1,
        (pushDeployment env node twin method dl (attempt + 1) retries).2)
    | Except.error e => ([(nodeCall env node twin method dl attempt).1], Except.error e.toError)

/-- Modelled from the spec: step 4 of the missing `Deploy` (§4.2), polling the
get-deployment RPC until every result has left pending. A pending answer and a
transport failure are both followed by another attempt while `retries` allows;
afterwards the task fails with a timeout, respectively with the transport
error. An application error or a cancellation ends the task at once. -/
def pollResults (env : DeployerEnv) (node twin : Nat) (sent : Deployment) :
    Nat → Nat → List Event × Except GoError Deployment
  | attempt, 0 =>
    match (nodeCall env node twin getMethod sent attempt).2 with
    | Except.error e =>
      ([(nodeCall env node twin getMethod sent attempt).1], Except.error e.toError)
    | Except.ok got =>
      if got.settled then ([(nodeCall env node twin getMethod sent attempt).1], Except.ok got)
      else ([(nodeCall env node twin getMethod sent attempt).1], Except.error ErrTimeout)
  | attempt, retries + 1 =>
    match (nodeCall env node twin getMethod sent attempt).2 with
    | Except.error (CallError.transport _) =>
      ((nodeCall env node twin getMethod sent attempt).1 ::
          (pollResults env node twin sent (attempt + 1) retries).1,
        (pollResults env node twin sent (attempt + 1) retries).2)
    | Except.error e =>
      ([(nodeCall env node twin getMethod sent attempt).1], Except.error e.toError)
    | Except.ok got =>
      if got.settled then ([(nodeCall env node twin getMethod sent attempt).1], Except.ok got)
      else
        ((nodeCall env node twin getMethod sent attempt).1 ::
            (pollResults env node twin sent (attempt + 1) retries).1,
          (pollResults env node twin sent (attempt + 1) retries).2)

/-- Modelled from the spec: steps 3 to 6 of the missing `Deploy` (§4.2) on a
resolved node client: push the signed deployment, poll, validate, and answer the
contract ID. -/
def pushAndWait (env : DeployerEnv) (retries node twin : Nat) (method : String)
    (dl : Deployment) : List Event × Except GoError Nat :=
  match pushDeployment env node twin method dl 0 retries with
  | (pushes, Except.error e) => (pushes, Except.error e)
  | (pushes, Except.ok _) =>
    match pollResults env node twin dl 0 retries with
    | (polls, Except.error e) => (pushes ++ polls, Except.error e)
    | (polls, Except.ok got) =>
      match env.validate dl got with
      | some e => (pushes ++ polls, Except.error e)
      | none => (pushes ++ polls, Except.ok dl.ContractID)

/-- Modelled from the spec: what the task of the missing `Deploy` does once the
contract is in place (§4.2 steps 3 to 6, §4.4): resolve the node client, which
may fail, then push and wait. -/
def deliver (env : DeployerEnv) (retries node : Nat) (method : String) (dl : Deployment) :
    List Event × Except GoError Nat :=
  match (resolveClient env node).2 with
  | Except.error e =>
    ([(resolveClient env node).1], Except.error (GoError.wrap e "failed to get node client"))
  | Except.ok twin =>
    ((resolveClient env node).1 :: (pushAndWait env retries node twin method dl).1,
      (pushAndWait env retries node twin method dl).2)

/-- Modelled from the spec: the task the missing `Deploy` runs for one node of
`newDeployments` (§4.2, steps 1 to 6); `old` is the prior deployment of the node,
when there is one. A failed chain call aborts the task. -/
def reconcileNode (env : DeployerEnv) (identity : String) (retries node : Nat)
    (old : Option Deployment) (new : Deployment) : List Event × Except GoError Nat :=
  let signed := env.sign identity new
  let hash := env.challengeHash signed
  match old.filter (fun o => decide (o.ContractID ≠ 0)) with
  | none =>
    match (chainCreate env identity node hash).2 with
    | Except.error e =>
      ([(chainCreate env identity node hash).1],
        Except.error (GoError.wrap e "failed to create contract"))
    | Except.ok contractID =>
      ((chainCreate env identity node hash).1 ::
          (deliver env retries node deployMethod { signed with ContractID := contractID }).1,
        (deliver env retries node deployMethod { signed with ContractID := contractID }).2)
  | some prior =>
    if env.challengeHash prior = hash then ([], Except.ok prior.ContractID)
    else
      match (chainUpdate env identity prior.ContractID hash).2 with
      | Except.error e =>
        ([(chainUpdate env identity prior.ContractID hash).1],
          Except.error (GoError.wrap e "failed to update contract"))
      | Except.ok contractID =>
        ((chainUpdate env identity prior.ContractID hash).1 ::
            (deliver env retries node updateMethod { signed with ContractID := contractID }).1,
          (deliver env retries node updateMethod { signed with ContractID := contractID }).2)

/-- Modelled from the spec: the deletion path of the missing `Deploy` (§4.2): the
delete RPC, then the contract cancellation, which is skipped when the client does
not resolve or the RPC fails. A failed removal keeps the contract ID recorded. -/
def removeNode (env : DeployerEnv) (identity : String) (retries node : Nat) (old : Deployment) :
    List Event × Except GoError Nat :=
  match (resolveClient env node).2 with
  | Except.error e =>
    ([(resolveClient env node).1], Except.error (GoError.wrap e "failed to get node client"))
  | Except.ok twin =>
    match pushDeployment env node twin deleteMethod old 0 retries with
    | (calls, Except.error e) =>
      ((resolveClient env node).1 :: calls,
        Except.error (GoError.wrap e "failed to delete the deployment"))
    | (calls, Except.ok _) =>
      match (chainCancel env identity old.ContractID).2 with
      | some e =>
        ((resolveClient env node).1 :: calls ++ [(chainCancel env identity old.ContractID).1],
          Except.error (GoError.wrap e "failed to cancel contract"))
      | none =>
        ((resolveClient env node).1 :: calls ++ [(chainCancel env identity old.ContractID).1],
          Except.ok 0)

/-- Modelled from the spec: what one per-node task of the missing `Deploy` leaves
behind: the node, the calls made, whether the node is being removed, and the
contract ID or the error. -/
structure NodeTask where
  node : Nat
  removal : Bool
  prior : Nat
  events : List Event
  result : Except GoError Nat

/-- The entry a finished task contributes to the contract-ID map. -/
def NodeTask.contract (t : NodeTask) : Option (Nat × Nat) :=
  match t.result with
  | Except.ok contractID => if t.removal then none else some (t.node, contractID)
  | Except.error _ => if t.removal then some (t.node, t.prior) else none

/-- The entry a finished task contributes to the aggregate error. -/
def NodeTask.failure (t : NodeTask) : Option (Nat × GoError) :=
  match t.result with
  | Except.ok _ => none
  | Except.error e => some (t.node, e)

/-- Modelled from the spec: the value the missing `Deploy` returns (§4.2, §7): the
contract-ID map, the aggregate error keyed by node ID (nil when no task failed),
and, for the record, the finished tasks. -/
structure DeployResult where
  contracts : List (Nat × Nat)
  err : Option (List (Nat × GoError))
  tasks : List NodeTask

/-- Modelled from the spec: the finished removal task of the missing `Deploy` for
a node that is only in `oldDeployments`. -/
def removalTask (env : DeployerEnv) (identity : String) (retries : Nat)
    (p : Nat × Deployment) : NodeTask :=
  { node := p.1, removal := true, prior := p.2.ContractID
    events := (removeNode env identity retries p.1 p.2).1
    result := (removeNode env identity retries p.1 p.2).2 }

/-- Modelled from the spec: the finished reconciliation task of the missing
`Deploy` for a node of `newDeployments`. -/
def reconcileTask (env : DeployerEnv) (identity : String) (retries : Nat)
    (oldDeployments : List (Nat × Deployment)) (p : Nat × Deployment) : NodeTask :=
  { node := p.1, removal := false, prior := 0
    events := (reconcileNode env identity retries p.1 (oldDeployments.lookup p.1) p.2).1
    result := (reconcileNode env identity retries p.1 (oldDeployments.lookup p.1) p.2).2 }

/-- Modelled from the spec: the tasks of the missing `Deploy` (§4.2): one removal
per node that is only in `oldDeployments`, one reconciliation per node of
`newDeployments`. Both maps are key/value lists with distinct keys. -/
def deployTasks (env : DeployerEnv) (identity : String) (retries : Nat)
    (oldDeployments newDeployments : List (Nat × Deployment)) : List NodeTask :=
  ((oldDeployments.filter (fun p => (newDeployments.lookup p.1).isNone)).map
    (removalTask env identity retries)) ++
  newDeployments.map (reconcileTask env identity retries oldDeployments)

/-- Modelled from the spec: the missing `Deploy(ctx, chainClient, oldDeployments,
newDeployments)` of the deployer (§4.2, §7): run the per-node tasks and collect
the contract IDs and the failures; `retries` is the retry budget of a push and of
the poll. -/
def Deploy (env : DeployerEnv) (identity : String) (retries : Nat)
    (oldDeployments newDeployments : List (Nat × Deployment)) : DeployResult :=
  let tasks := deployTasks env identity retries oldDeployments newDeployments
  { contracts := tasks.filterMap NodeTask.contract
    err := if tasks.filterMap NodeTask.failure = [] then none
      else some (tasks.filterMap NodeTask.failure)
    tasks := tasks }

/-- The calls `Deploy` made for one node, in the order its task made them. -/
def DeployResult.eventsFor (r : DeployResult) (node : Nat) : List Event :=
  ((r.tasks.filter (fun t => decide (t.node = node))).map (fun t => t.events)).flatten

/-- Modelled from the spec: the deployment of `deployment1` in the deployer test,
one gateway-name workload. -/
def deployment1 : Deployment :=
  { TwinID := 214
    Workloads := [{ Name := "name", Type_ := GatewayNameProxyType
                    Data := Payload.gatewayName
                      { Name := "name", TLSPassthrough := true, Backends := ["http://1.1.1.1"] } }] }

/-- Modelled from the spec: the deployment of `deployment2` in the deployer test,
one gateway-FQDN workload. -/
def deployment2 : Deployment :=
  { TwinID := 214
    Workloads := [{ Name := "fqdn", Type_ := GatewayFQDNProxyType
                    Data := Payload.gatewayFQDN
                      { FQDN := "a.b.com", TLSPassthrough := false,
                        Backends := ["http://1.1.1.1"] } }] }

/-- The maps of `TestCreate`: node 10 gets `deployment1`, node 20 `deployment2`. -/
def newDls : List (Nat × Deployment) := [(10, deployment1), (20, deployment2)]

/-- The mocks of `TestCreate` as services: contracts 100 and 200 are created for
nodes 10 and 20, whose clients are the twins 13 and 23, every push succeeds, the
get-deployment RPC echoes the deployment with every result in state ok, and the
validator is the one given. -/
def testEnv (validate : Deployment → Deployment → Option GoError) : DeployerEnv :=
  { sign := fun identity dl => { dl with Signature := identity }
    challengeHash := fun dl =>
      String.join (dl.Workloads.map (fun w => w.Name ++ ":" ++ w.Type_ ++ ";"))
    createNodeContract := fun _ node _ =>
      if node = 10 then Except.ok 100
      else if node = 20 then Except.ok 200
      else Except.error (GoError.new "unexpected node")
    updateNodeContract := fun _ contractID _ => Except.ok contractID
    cancelContract := fun _ _ => none
    getNodeClient := fun node =>
      if node = 10 then Except.ok 13
      else if node = 20 then Except.ok 23
      else Except.error (GoError.new "unexpected node")
    clientCall := fun _ method dl _ =>
      if method = getMethod then
        Except.ok
          { dl with
            Workloads := (dl.Workloads.map (fun w =>
              { w with Result := { State := ResultState.ok, Data := w.Result.Data } })) }
      else Except.ok dl
    validate := validate }

/-- The permissive validator `EmptyValidator` of the test. -/
def emptyValidator : Deployment → Deployment → Option GoError := fun _ _ => none

/-- A validator that rejects every returned deployment. -/
def rejectingValidator : Deployment → Deployment → Option GoError :=
  fun _ _ => some (GoError.new "validation rejected")

/-- Services of the test in which the chain refuses every contract creation. -/
def failingChainEnv : DeployerEnv :=
  { testEnv emptyValidator with
    createNodeContract := fun _ _ _ => Except.error (GoError.new "contract rejected") }

/-- Services of the test in which the first attempt of every push fails in
transport and the second succeeds. -/
def flakyPushEnv : DeployerEnv :=
  { testEnv emptyValidator with
    clientCall := fun twin method dl attempt =>
      if method = deployMethod ∧ attempt = 0 then
        Except.error (CallError.transport (GoError.new "connection refused"))
      else (testEnv emptyValidator).clientCall twin method dl attempt }

/-- Services of the test in which no node client resolves. -/
def noClientEnv : DeployerEnv :=
  { testEnv emptyValidator with
    getNodeClient := fun _ => Except.error (GoError.new "node unreachable") }

/-- The deployment pushed for a node after its contract was created. -/
def sentDeployment (env : DeployerEnv) (identity : String) (dl : Deployment) (contractID : Nat) :
    Deployment :=
  { env.sign identity dl with ContractID := contractID }

/-! ## Sample inputs -/

/-- A node description with the given name and node ID and no public address. -/
def sampleNode (name : String) (node : Nat) : K8sNodeData :=
  { Name := name, Node := node, DiskSize := 5, PublicIP := false, PublicIP6 := false,
    Planetary := true, IP := "10.1.0.2", Cpu := 2, Memory := 1024 }

/-- A cluster whose second worker repeats the name of the master. -/
def dupCluster : K8sCluster :=
  { Master := some (sampleNode "a" 1)
    Workers := [sampleNode "b" 2, sampleNode "a" 3, sampleNode "b" 4]
    Token := "tok", SSHKey := "key", NetworkName := "net" }

/-- A cluster with pairwise distinct node names, two of them on node 1. -/
def sampleCluster : K8sCluster :=
  { Master := some (sampleNode "master" 1)
    Workers := [sampleNode "w1" 2, sampleNode "w2" 1]
    Token := "tok", SSHKey := "key", NetworkName := "net" }

/-- A cluster with distinct node names in which the worker is called like the
disk of the master and sits on the same node. -/
def collidingCluster : K8sCluster :=
  { Master := some (sampleNode "a" 1)
    Workers := [sampleNode "adisk" 1]
    Token := "tok", SSHKey := "key", NetworkName := "net" }

/-- The sample cluster with a nil master pointer. -/
def headlessCluster : K8sCluster := { sampleCluster with Master := none }

/-- A cluster with a nil master pointer whose two workers share a name. -/
def headlessDupCluster : K8sCluster :=
  { Master := none
    Workers := [sampleNode "a" 1, sampleNode "a" 2]
    Token := "tok", SSHKey := "key", NetworkName := "net" }

/-- A node description that requests a public IPv4 address. -/
def publicNode : K8sNodeData :=
  { Name := "pub", Node := 3, DiskSize := 5, PublicIP := true, PublicIP6 := false,
    Planetary := false, IP := "10.1.0.3", Cpu := 2, Memory := 1024 }

/-- Names of the disk and public-ip workloads a machine refers to: its mounts and,
when set, its public IP. -/
def ZMachine.diskAndIPNames (zm : ZMachine) : List String :=
  zm.Mounts.map (fun m => m.Name) ++
    (if zm.Network.PublicIP = "" then [] else [zm.Network.PublicIP])

/-- All workload names a machine refers to: the networks of its interfaces, its
mounts and, when set, its public IP. -/
def ZMachine.referencedNames (zm : ZMachine) : List String :=
  zm.Network.Interfaces.map (fun i => i.Network) ++ zm.diskAndIPNames

/-- The machine payload of a workload, when it carries one. -/
def Workload.machine? (w : Workload) : Option ZMachine :=
  match w.Data with
  | Payload.zmachine zm => some zm
  | _ => none

/-- Names of the workloads of a generated list (none after a panic). -/
def generatedNames (o : Outcome (List Workload)) : List String :=
  match o with
  | Outcome.ret ws => ws.map (fun w => w.Name)
  | Outcome.panic => []

/-- All workload names the last workload of a generated list refers to, when that
workload is a machine. -/
def lastMachineReferences (o : Outcome (List Workload)) : List String :=
  match o with
  | Outcome.ret ws =>
    match ws.getLast? with
    | some w =>
      match w.machine? with
      | some zm => zm.referencedNames
      | none => []
    | none => []
  | Outcome.panic => []

/-- Names of the workloads staged for a node (none after a panic). -/
def stagedNames (o : Outcome WorkloadMap) (node : Nat) : List String :=
  match o with
  | Outcome.ret w => (w.get node).map (fun x => x.Name)
  | Outcome.panic => []

/-! ## Closed forms of the generated workloads -/

/-- The disk workload of a node. -/
def diskOf (k : K8sNodeData) : Workload :=
  { Name := k.Name ++ "disk", Type_ := ZMountType,
    Data := Payload.zmount { Size := mulUnit (toUint64 k.DiskSize) Gigabyte } }

/-- The machine payload of a node for a given public-IP name and environment. -/
def machinePayloadOf (k : K8sNodeData) (c : K8sCluster) (publicIPName : String)
    (env : StrMap) : ZMachine :=
  { FList := "https://hub.grid.tf/tf-official-apps/threefoldtech-k3s-latest.flist"
    Network :=
      { Interfaces := [{ Network := c.NetworkName, IP := { parsedFrom := k.IP } }]
        PublicIP := publicIPName
        Planetary := k.Planetary }
    ComputeCapacity :=
      { CPU := toUint8 k.Cpu, Memory := mulUnit (toUint64 k.Memory) Megabyte }
    Entrypoint := "/sbin/zinit init"
    Mounts := [{ Name := k.Name ++ "disk", Mountpoint := "/mydisk" }]
    Env := env }

/-- The machine workload of a node. -/
def machineOf (k : K8sNodeData) (c : K8sCluster) (publicIPName : String) (env : StrMap) :
    Workload :=
  { Name := k.Name, Type_ := ZMachineType,
    Data := Payload.zmachine (machinePayloadOf k c publicIPName env) }

/-- The environment of the machine: `K3S_URL` is set for a worker only. -/
def envOf (k : K8sNodeData) (c : K8sCluster) (worker : Bool) (master : K8sNodeData) : StrMap :=
  if worker then
    (k8sEnvVars k c).set "K3S_URL" (toString master.Node ++ ":" ++ master.Name)
  else k8sEnvVars k c

/-! ## Name validation -/

theorem validateNamesLoop_eq_none (names : List String) (ws : List K8sNodeData) :
    validateNamesLoop names ws = none ↔
      (∀ w ∈ ws, w.Name ∉ names) ∧ (ws.map (fun w => w.Name)).Nodup := by
  induction ws generalizing names with
  | nil => simp [validateNamesLoop]
  | cons w rest ih =>
    unfold validateNamesLoop
    by_cases hw : w.Name ∈ names
    · simp only [hw, if_true]
      constructor
      · intro h; cases h
      · intro h; exact absurd hw (h.1 w (List.mem_cons_self _ _))
    · simp only [hw, if_false, ih, List.mem_cons, List.map_cons, List.nodup_cons, List.mem_map]
      constructor
      · rintro ⟨h1, h2⟩
        refine ⟨?_, ?_, h2⟩
        · intro x hx
          rcases hx with rfl | hx
          · exact hw
          · exact fun hmem => h1 x hx (Or.inr hmem)
        · rintro ⟨x, hx, hxe⟩
          exact h1 x hx (Or.inl hxe)
      · rintro ⟨h1, h2, h3⟩
        refine ⟨?_, h3⟩
        intro x hx hmem
        rcases hmem with hmem | hmem
        · exact h2 ⟨x, hx, hmem⟩
        · exact h1 x (Or.inr hx) hmem

theorem validateNamesLoop_eq_some (names : List String) (ws : List K8sNodeData) (e : GoError)
    (h : validateNamesLoop names ws = some e) :
    ∃ pre w post, ws = pre ++ w :: post ∧
      (∀ x ∈ pre, x.Name ∉ names) ∧ (pre.map (fun x => x.Name)).Nodup ∧
      (w.Name ∈ names ∨ w.Name ∈ pre.map (fun x => x.Name)) ∧
      e = GoError.wrap ErrDuplicateName ("name " ++ w.Name ++ " is duplicated") := by
  induction ws generalizing names with
  | nil => simp [validateNamesLoop] at h
  | cons w rest ih =>
    unfold validateNamesLoop at h
    by_cases hw : w.Name ∈ names
    · simp only [hw, if_true, Option.some.injEq] at h
      exact ⟨[], w, rest, rfl, by simp, by simp, Or.inl hw, h.symm⟩
    · simp only [hw, if_false] at h
      obtain ⟨pre, x, post, hsplit, hpre, hnd, hx, he⟩ := ih _ h
      refine ⟨w :: pre, x, post, by simp [hsplit], ?_, ?_, ?_, he⟩
      · intro y hy
        rcases List.mem_cons.1 hy with rfl | hy
        · exact hw
        · exact fun hmem => hpre y hy (List.mem_cons_of_mem _ hmem)
      · simp only [List.map_cons, List.nodup_cons, List.mem_map]
        refine ⟨?_, hnd⟩
        rintro ⟨y, hy, hye⟩
        exact hpre y hy (by simp [hye])
      · rcases hx with hx | hx
        · rcases List.mem_cons.1 hx with hx | hx
          · exact Or.inr (by simp [hx])
          · exact Or.inl hx
        · exact Or.inr (List.mem_cons_of_mem _ hx)

theorem wrap_ErrDuplicateName_Is (msg : String) :
    (GoError.wrap ErrDuplicateName msg).Is ErrDuplicateName = true := by
  simp [GoError.Is, ErrDuplicateName]

theorem wrap_ErrDuplicateName_Error (msg : String) :
    (GoError.wrap ErrDuplicateName msg).Error = msg ++ ": node names are not unique" := by
  simp only [GoError.Error, ErrDuplicateName, String.append_assoc]
  rfl

theorem nodup_master_workers (m : String) (ws : List K8sNodeData) :
    (m :: ws.map (fun w => w.Name)).Nodup ↔
      (∀ w ∈ ws, w.Name ∉ [m]) ∧ (ws.map (fun w => w.Name)).Nodup := by
  simp only [List.nodup_cons, List.mem_map, List.mem_singleton]
  constructor
  · rintro ⟨h1, h2⟩
    exact ⟨fun w hw he => h1 ⟨w, hw, he⟩, h2⟩
  · rintro ⟨h1, h2⟩
    exact ⟨fun ⟨w, hw, he⟩ => h1 w hw he, h2⟩

/-- C4: for a cluster with a non-nil master, `validateNames` returns nil exactly
when the master and worker names are pairwise distinct; otherwise it returns the
error wrapping `ErrDuplicateName` whose message names the first worker, in list
order, whose name equals the name of the master or of an earlier worker. -/
theorem validateNames_spec (k : K8sCluster) (master : K8sNodeData)
    (hM : k.Master = some master) :
    (k.validateNames = Outcome.ret none ↔
      (master.Name :: k.Workers.map (fun w => w.Name)).Nodup) ∧
    (¬ (master.Name :: k.Workers.map (fun w => w.Name)).Nodup →
      ∃ pre w post e, k.Workers = pre ++ w :: post ∧
        (master.Name :: pre.map (fun x => x.Name)).Nodup ∧
        w.Name ∈ master.Name :: pre.map (fun x => x.Name) ∧
        k.validateNames = Outcome.ret (some e) ∧
        e = GoError.wrap ErrDuplicateName ("name " ++ w.Name ++ " is duplicated") ∧
        e.Is ErrDuplicateName = true ∧
        e.Error = "name " ++ w.Name ++ " is duplicated: node names are not unique") := by
  have hv : k.validateNames = Outcome.ret (validateNamesLoop [master.Name] k.Workers) := by
    simp [K8sCluster.validateNames, hM]
  have hnone := validateNamesLoop_eq_none [master.Name] k.Workers
  constructor
  · rw [hv, nodup_master_workers, ← hnone]
    constructor
    · intro h; injection h
    · intro h; rw [h]
  · intro hdup
    rw [nodup_master_workers, ← hnone] at hdup
    cases hloop : validateNamesLoop [master.Name] k.Workers with
    | none => exact absurd hloop hdup
    | some e =>
      obtain ⟨pre, w, post, hsplit, hpre, hnd, hw, he⟩ :=
        validateNamesLoop_eq_some _ _ e hloop
      refine ⟨pre, w, post, e, hsplit, ?_, ?_, by rw [hv, hloop], he, ?_, ?_⟩
      · exact (nodup_master_workers master.Name pre).2 ⟨hpre, hnd⟩
      · rcases hw with hw | hw
        · exact List.mem_cons.2 (Or.inl (List.mem_singleton.1 hw))
        · exact List.mem_cons_of_mem _ hw
      · rw [he]; exact wrap_ErrDuplicateName_Is _
      · rw [he, wrap_ErrDuplicateName_Error]
        simp [String.append_assoc]

/-- Witness for C4 on a cluster whose second worker repeats the master name. -/
theorem validateNames_spec_witness :
    dupCluster.Master = some (sampleNode "a" 1) ∧
    dupCluster.validateNames =
      Outcome.ret (some (GoError.wrap ErrDuplicateName "name a is duplicated")) ∧
    ((dupCluster.validateNames = Outcome.ret none ↔
      ((sampleNode "a" 1).Name :: dupCluster.Workers.map (fun w => w.Name)).Nodup) ∧
    (¬ ((sampleNode "a" 1).Name :: dupCluster.Workers.map (fun w => w.Name)).Nodup →
      ∃ pre w post e, dupCluster.Workers = pre ++ w :: post ∧
        ((sampleNode "a" 1).Name :: pre.map (fun x => x.Name)).Nodup ∧
        w.Name ∈ (sampleNode "a" 1).Name :: pre.map (fun x => x.Name) ∧
        dupCluster.validateNames = Outcome.ret (some e) ∧
        e = GoError.wrap ErrDuplicateName ("name " ++ w.Name ++ " is duplicated") ∧
        e.Is ErrDuplicateName = true ∧
        e.Error = "name " ++ w.Name ++ " is duplicated: node names are not unique")) :=
  ⟨rfl, by decide, validateNames_spec dupCluster (sampleNode "a" 1) rfl⟩

/-! ## Workload generation -/

theorem GenerateK8sWorkload_eq (k : K8sNodeData) (c : K8sCluster) (worker : Bool)
    (master : K8sNodeData) (hM : worker = true → c.Master = some master) :
    k.GenerateK8sWorkload c worker =
      Outcome.ret
        (if k.PublicIP || k.PublicIP6 then
          [diskOf k, constructPublicIPWorkload (k.Name ++ "ip") k.PublicIP k.PublicIP6,
            machineOf k c (k.Name ++ "ip") (envOf k c worker master)]
        else [diskOf k, machineOf k c "" (envOf k c worker master)]) := by
  cases worker with
  | true =>
    have h := hM rfl
    by_cases hip : (k.PublicIP || k.PublicIP6) = true <;>
      simp [K8sNodeData.GenerateK8sWorkload, h, hip, diskOf, machineOf, machinePayloadOf, envOf,
        MustMarshal]
  | false =>
    by_cases hip : (k.PublicIP || k.PublicIP6) = true <;>
      simp [K8sNodeData.GenerateK8sWorkload, hip, diskOf, machineOf, machinePayloadOf, envOf,
        MustMarshal]

theorem lookup_envOf_worker (k : K8sNodeData) (c : K8sCluster) (master : K8sNodeData) :
    (envOf k c true master).lookup "K3S_URL" = some (toString master.Node ++ ":" ++ master.Name) ∧
    (envOf k c true master).lookup "K3S_NODE_NAME" = some k.Name ∧
    (envOf k c true master).lookup "K3S_TOKEN" = some c.Token ∧
    (envOf k c true master).lookup "SSH_KEY" = some c.SSHKey := by
  simp [envOf, k8sEnvVars, StrMap.set, List.lookup]

theorem lookup_envOf_master (k : K8sNodeData) (c : K8sCluster) (master : K8sNodeData) :
    (envOf k c false master).lookup "K3S_URL" = some "" ∧
    (envOf k c false master).lookup "K3S_NODE_NAME" = some k.Name ∧
    (envOf k c false master).lookup "K3S_TOKEN" = some c.Token ∧
    (envOf k c false master).lookup "SSH_KEY" = some c.SSHKey := by
  simp [envOf, k8sEnvVars, List.lookup]

/-- C7: for a cluster with a non-nil master, the machine workload generated for a
worker carries `K3S_URL` equal to the decimal master node ID, a colon and the
master name, the one generated with `worker = false` carries the empty `K3S_URL`;
in both, `K3S_NODE_NAME` is the node name and `K3S_TOKEN`, `SSH_KEY` are the
token and SSH key of the cluster. -/
theorem GenerateK8sWorkload_env (k : K8sNodeData) (c : K8sCluster) (master : K8sNodeData)
    (hM : c.Master = some master) :
    (∃ pre machine zm, k.GenerateK8sWorkload c true = Outcome.ret (pre ++ [machine]) ∧
      machine.Type_ = ZMachineType ∧ machine.machine? = some zm ∧
      zm.Env.lookup "K3S_URL" = some (toString master.Node ++ ":" ++ master.Name) ∧
      zm.Env.lookup "K3S_NODE_NAME" = some k.Name ∧
      zm.Env.lookup "K3S_TOKEN" = some c.Token ∧
      zm.Env.lookup "SSH_KEY" = some c.SSHKey) ∧
    (∃ pre machine zm, k.GenerateK8sWorkload c false = Outcome.ret (pre ++ [machine]) ∧
      machine.Type_ = ZMachineType ∧ machine.machine? = some zm ∧
      zm.Env.lookup "K3S_URL" = some "" ∧
      zm.Env.lookup "K3S_NODE_NAME" = some k.Name ∧
      zm.Env.lookup "K3S_TOKEN" = some c.Token ∧
      zm.Env.lookup "SSH_KEY" = some c.SSHKey) := by
  constructor
  · rw [GenerateK8sWorkload_eq k c true master (fun _ => hM)]
    by_cases hip : (k.PublicIP || k.PublicIP6) = true
    · rw [if_pos hip]
      exact ⟨[diskOf k, constructPublicIPWorkload (k.Name ++ "ip") k.PublicIP k.PublicIP6],
        machineOf k c (k.Name ++ "ip") (envOf k c true master), _, rfl, rfl, rfl,
        lookup_envOf_worker k c master⟩
    · rw [if_neg hip]
      exact ⟨[diskOf k], machineOf k c "" (envOf k c true master), _, rfl, rfl, rfl,
        lookup_envOf_worker k c master⟩
  · rw [GenerateK8sWorkload_eq k c false master (fun h => by cases h)]
    by_cases hip : (k.PublicIP || k.PublicIP6) = true
    · rw [if_pos hip]
      exact ⟨[diskOf k, constructPublicIPWorkload (k.Name ++ "ip") k.PublicIP k.PublicIP6],
        machineOf k c (k.Name ++ "ip") (envOf k c false master), _, rfl, rfl, rfl,
        lookup_envOf_master k c master⟩
    · rw [if_neg hip]
      exact ⟨[diskOf k], machineOf k c "" (envOf k c false master), _, rfl, rfl, rfl,
        lookup_envOf_master k c master⟩

/-- Witness for C7: a worker of the sample cluster, whose master is node 1 named
`master`, is pointed at `1:master`. -/
theorem GenerateK8sWorkload_env_witness :
    sampleCluster.Master = some (sampleNode "master" 1) ∧
    toString (sampleNode "master" 1).Node ++ ":" ++ (sampleNode "master" 1).Name = "1:master" ∧
    ((∃ pre machine zm,
      (sampleNode "w1" 2).GenerateK8sWorkload sampleCluster true = Outcome.ret (pre ++ [machine]) ∧
      machine.Type_ = ZMachineType ∧ machine.machine? = some zm ∧
      zm.Env.lookup "K3S_URL" =
        some (toString (sampleNode "master" 1).Node ++ ":" ++ (sampleNode "master" 1).Name) ∧
      zm.Env.lookup "K3S_NODE_NAME" = some (sampleNode "w1" 2).Name ∧
      zm.Env.lookup "K3S_TOKEN" = some sampleCluster.Token ∧
      zm.Env.lookup "SSH_KEY" = some sampleCluster.SSHKey) ∧
    (∃ pre machine zm,
      (sampleNode "w1" 2).GenerateK8sWorkload sampleCluster false = Outcome.ret (pre ++ [machine]) ∧
      machine.Type_ = ZMachineType ∧ machine.machine? = some zm ∧
      zm.Env.lookup "K3S_URL" = some "" ∧
      zm.Env.lookup "K3S_NODE_NAME" = some (sampleNode "w1" 2).Name ∧
      zm.Env.lookup "K3S_TOKEN" = some sampleCluster.Token ∧
      zm.Env.lookup "SSH_KEY" = some sampleCluster.SSHKey)) :=
  ⟨rfl, by decide, GenerateK8sWorkload_env (sampleNode "w1" 2) sampleCluster (sampleNode "master" 1) rfl⟩

theorem name_append_ne_empty (a : String) : a ++ "ip" ≠ "" := by
  intro h
  have hlen := congrArg String.length h
  simp only [String.length_append] at hlen
  have h2 : "ip".length = 2 := by decide
  have h0 : "".length = 0 := by decide
  omega

/-- C8 (as amended): when the master is non-nil or `worker` is false, the
generated list is `[disk, machine]` without a public IP and
`[disk, public-ip, machine]` with one; the machine is last and named after the
node, has exactly one mount, whose name is the name of the disk workload, and its
public-IP reference is the name of the public-ip workload when present and empty
otherwise; so every disk and public-ip name the machine refers to is the name of
a workload of the list. Its single interface refers to the network named by the
cluster, so all the names the machine refers to are names of workloads of the
list exactly when the network name of the cluster is one of them. -/
theorem GenerateK8sWorkload_shape (k : K8sNodeData) (c : K8sCluster) (worker : Bool)
    (hM : worker = true → c.Master ≠ none) :
    ∃ ws disk machine zm,
      k.GenerateK8sWorkload c worker = Outcome.ret ws ∧
      ws.head? = some disk ∧ ws.getLast? = some machine ∧
      disk.Type_ = ZMountType ∧ disk.Name = k.Name ++ "disk" ∧
      machine.Type_ = ZMachineType ∧ machine.Name = k.Name ∧
      machine.machine? = some zm ∧
      zm.Mounts.map (fun m => m.Name) = [disk.Name] ∧
      (k.PublicIP = false ∧ k.PublicIP6 = false →
        ws = [disk, machine] ∧ zm.Network.PublicIP = "") ∧
      (k.PublicIP = true ∨ k.PublicIP6 = true →
        ∃ pip, ws = [disk, pip, machine] ∧ pip.Type_ = PublicIPType ∧
          pip.Name = k.Name ++ "ip" ∧ zm.Network.PublicIP = pip.Name) ∧
      (∀ n ∈ zm.diskAndIPNames, n ∈ ws.map (fun w => w.Name)) ∧
      zm.Network.Interfaces.map (fun i => i.Network) = [c.NetworkName] ∧
      ((∀ n ∈ zm.referencedNames, n ∈ ws.map (fun w => w.Name)) ↔
        c.NetworkName ∈ ws.map (fun w => w.Name)) := by
  have hgen : ∃ master, k.GenerateK8sWorkload c worker =
      Outcome.ret
        (if k.PublicIP || k.PublicIP6 then
          [diskOf k, constructPublicIPWorkload (k.Name ++ "ip") k.PublicIP k.PublicIP6,
            machineOf k c (k.Name ++ "ip") (envOf k c worker master)]
        else [diskOf k, machineOf k c "" (envOf k c worker master)]) := by
    cases hm : c.Master with
    | none =>
      refine ⟨k, GenerateK8sWorkload_eq k c worker k ?_⟩
      intro hw
      exact absurd hm (hM hw)
    | some master =>
      exact ⟨master, GenerateK8sWorkload_eq k c worker master (fun _ => hm)⟩
  obtain ⟨master, hgen⟩ := hgen
  by_cases hip : (k.PublicIP || k.PublicIP6) = true
  · rw [if_pos hip] at hgen
    have hor : k.PublicIP = true ∨ k.PublicIP6 = true := by simpa using hip
    refine ⟨_, diskOf k, machineOf k c (k.Name ++ "ip") (envOf k c worker master), _, hgen,
      rfl, rfl, rfl, rfl, rfl, rfl, rfl, rfl, ?_, ?_, ?_, rfl, ?_⟩
    · rintro ⟨h1, h2⟩
      rcases hor with h | h
      · rw [h1] at h; cases h
      · rw [h2] at h; cases h
    · intro _
      exact ⟨constructPublicIPWorkload (k.Name ++ "ip") k.PublicIP k.PublicIP6, rfl, rfl, rfl, rfl⟩
    · intro n hn
      simp only [ZMachine.diskAndIPNames, machinePayloadOf, name_append_ne_empty, if_false,
        List.map_cons, List.map_nil, List.mem_append, List.mem_singleton, List.mem_cons,
        List.not_mem_nil, or_false] at hn
      rcases hn with rfl | rfl <;>
        simp [diskOf, machineOf, constructPublicIPWorkload]
    · simp [ZMachine.referencedNames, ZMachine.diskAndIPNames, machinePayloadOf,
        name_append_ne_empty, diskOf, machineOf, constructPublicIPWorkload]
  · rw [if_neg hip] at hgen
    have hand : k.PublicIP = false ∧ k.PublicIP6 = false := by simpa using hip
    refine ⟨_, diskOf k, machineOf k c "" (envOf k c worker master), _, hgen,
      rfl, rfl, rfl, rfl, rfl, rfl, rfl, rfl, ?_, ?_, ?_, rfl, ?_⟩
    · intro _
      exact ⟨rfl, rfl⟩
    · rintro (h | h)
      · rw [hand.1] at h; cases h
      · rw [hand.2] at h; cases h
    · intro n hn
      simp only [ZMachine.diskAndIPNames, machinePayloadOf, if_true,
        List.map_cons, List.map_nil, List.mem_append, List.mem_singleton, List.mem_cons,
        List.not_mem_nil, or_false] at hn
      subst hn
      simp [diskOf, machineOf]
    · simp [ZMachine.referencedNames, ZMachine.diskAndIPNames, machinePayloadOf, diskOf,
        machineOf]

/-- Witness for C8 (as amended): a node requesting a public IPv4 address, generated
as the master of a cluster without master record. -/
theorem GenerateK8sWorkload_shape_witness :
    (false = true → headlessCluster.Master ≠ none) ∧
    generatedNames (publicNode.GenerateK8sWorkload headlessCluster false) =
      ["pubdisk", "pubip", "pub"] ∧
    ∃ ws disk machine zm,
      publicNode.GenerateK8sWorkload headlessCluster false =
        Outcome.ret ws ∧
      ws.head? = some disk ∧ ws.getLast? = some machine ∧
      disk.Type_ = ZMountType ∧ disk.Name = publicNode.Name ++ "disk" ∧
      machine.Type_ = ZMachineType ∧ machine.Name = publicNode.Name ∧
      machine.machine? = some zm ∧
      zm.Mounts.map (fun m => m.Name) = [disk.Name] ∧
      (publicNode.PublicIP = false ∧ publicNode.PublicIP6 = false →
        ws = [disk, machine] ∧ zm.Network.PublicIP = "") ∧
      (publicNode.PublicIP = true ∨ publicNode.PublicIP6 = true →
        ∃ pip, ws = [disk, pip, machine] ∧ pip.Type_ = PublicIPType ∧
          pip.Name = publicNode.Name ++ "ip" ∧ zm.Network.PublicIP = pip.Name) ∧
      (∀ n ∈ zm.diskAndIPNames, n ∈ ws.map (fun w => w.Name)) ∧
      zm.Network.Interfaces.map (fun i => i.Network) =
        [headlessCluster.NetworkName] ∧
      ((∀ n ∈ zm.referencedNames, n ∈ ws.map (fun w => w.Name)) ↔
        headlessCluster.NetworkName ∈ ws.map (fun w => w.Name)) :=
  And.intro (fun h => Bool.noConfusion h) (And.intro (by decide)
    (GenerateK8sWorkload_shape publicNode headlessCluster false (fun h => Bool.noConfusion h)))

/-- C8 (as stated) fails: the machine generated for worker `w1` of the sample
cluster refers to the network `net`, and no workload of the generated list
`[w1disk, w1]` has that name. -/
theorem GenerateK8sWorkload_not_self_contained :
    generatedNames ((sampleNode "w1" 2).GenerateK8sWorkload sampleCluster true) =
      ["w1disk", "w1"] ∧
    lastMachineReferences ((sampleNode "w1" 2).GenerateK8sWorkload sampleCluster true) =
      ["net", "w1disk"] ∧
    ¬ (∀ n ∈ lastMachineReferences ((sampleNode "w1" 2).GenerateK8sWorkload sampleCluster true),
        n ∈ generatedNames ((sampleNode "w1" 2).GenerateK8sWorkload sampleCluster true)) := by
  decide

/-! ## Staging -/

theorem stageNode_ret (c : K8sCluster) (master : K8sNodeData) (hM : c.Master = some master)
    (worker : Bool) (w : WorkloadMap) (node : K8sNodeData) :
    ∃ w1, stageNode c worker (Outcome.ret w) node = Outcome.ret w1 := by
  unfold stageNode
  rw [GenerateK8sWorkload_eq node c worker master (fun _ => hM)]
  exact ⟨_, rfl⟩

theorem foldl_stageNode_ret (c : K8sCluster) (master : K8sNodeData)
    (hM : c.Master = some master) (ws : List K8sNodeData) (w : WorkloadMap) :
    ∃ w1, ws.foldl (stageNode c true) (Outcome.ret w) = Outcome.ret w1 := by
  induction ws generalizing w with
  | nil => exact ⟨w, rfl⟩
  | cons x rest ih =>
    obtain ⟨w1, h1⟩ := stageNode_ret c master hM true w x
    rw [List.foldl_cons, h1]
    exact ih w1

theorem stagedWorkloads_ret (c : K8sCluster) (master : K8sNodeData)
    (hM : c.Master = some master) :
    ∃ w, c.stagedWorkloads master = Outcome.ret w := by
  unfold K8sCluster.stagedWorkloads
  obtain ⟨w0, h0⟩ := stageNode_ret c master hM false WorkloadMap.empty master
  rw [h0]
  exact foldl_stageNode_ret c master hM _ w0

theorem Stage_of_valid {σ : Type} (k : K8sCluster) (master : K8sNodeData)
    (hM : k.Master = some master) (w : WorkloadMap)
    (hv : k.validateNames = Outcome.ret none)
    (hw : k.stagedWorkloads master = Outcome.ret w)
    (manager : DeploymentManager σ) (s : σ) :
    k.Stage manager s = Outcome.ret (manager.SetWorkloads w s) := by
  unfold K8sCluster.Stage
  rw [hv]
  simp only [hM, hw]
  rcases hset : manager.SetWorkloads w s with ⟨err, s1⟩
  cases err <;> rfl

theorem Stage_of_invalid {σ : Type} (k : K8sCluster) (e : GoError)
    (hv : k.validateNames = Outcome.ret (some e))
    (manager : DeploymentManager σ) (s : σ) :
    k.Stage manager s = Outcome.ret (some e, s) := by
  unfold K8sCluster.Stage
  rw [hv]

/-- C5 (as amended): for a cluster with a non-nil master, when two node names
coincide `Stage` returns the `ErrDuplicateName` error without calling `SetWorkloads` (the manager
state is unchanged and a recording manager has recorded no call); when the names
are distinct `Stage` calls `SetWorkloads` exactly once, with the staged map, and
returns the error and state of that call. -/
theorem Stage_atomic {σ : Type} (k : K8sCluster) (master : K8sNodeData)
    (hM : k.Master = some master) (manager : DeploymentManager σ) (s : σ)
    (resp : WorkloadMap → Option GoError)
    (known : Nat → String → Option Workload) :
    (¬ (master.Name :: k.Workers.map (fun w => w.Name)).Nodup →
      ∃ e, e.Is ErrDuplicateName = true ∧
        k.validateNames = Outcome.ret (some e) ∧
        k.Stage manager s = Outcome.ret (some e, s) ∧
        k.Stage (recordingManager resp known) [] = Outcome.ret (some e, [])) ∧
    ((master.Name :: k.Workers.map (fun w => w.Name)).Nodup →
      ∃ w, k.stagedWorkloads master = Outcome.ret w ∧
        k.Stage manager s = Outcome.ret (manager.SetWorkloads w s) ∧
        k.Stage (recordingManager resp known) [] = Outcome.ret (resp w, [w])) := by
  have hv : k.validateNames = Outcome.ret (validateNamesLoop [master.Name] k.Workers) := by
    simp [K8sCluster.validateNames, hM]
  have hnone := validateNamesLoop_eq_none [master.Name] k.Workers
  constructor
  · intro hdup
    rw [nodup_master_workers, ← hnone] at hdup
    cases hloop : validateNamesLoop [master.Name] k.Workers with
    | none => exact absurd hloop hdup
    | some e =>
      obtain ⟨pre, x, post, _, _, _, _, he⟩ := validateNamesLoop_eq_some _ _ e hloop
      rw [hloop] at hv
      exact ⟨e, by rw [he]; exact wrap_ErrDuplicateName_Is _, hv,
        Stage_of_invalid k e hv manager s, Stage_of_invalid k e hv _ []⟩
  · intro hnd
    rw [nodup_master_workers, ← hnone] at hnd
    rw [hnd] at hv
    obtain ⟨w, hw⟩ := stagedWorkloads_ret k master hM
    exact ⟨w, hw, Stage_of_valid k master hM w hv hw manager s,
      Stage_of_valid k master hM w hv hw _ []⟩

/-- Witness for C5: the cluster repeating the master name is rejected without a
call, the sample cluster is staged with one call. -/
theorem Stage_atomic_witness :
    dupCluster.Master = some (sampleNode "a" 1) ∧
    sampleCluster.Master = some (sampleNode "master" 1) ∧
    (∃ e, e.Is ErrDuplicateName = true ∧
      dupCluster.validateNames = Outcome.ret (some e) ∧
      dupCluster.Stage (recordingManager (fun _ => none) knownOnNode7) [] =
        Outcome.ret (some e, []) ∧
      dupCluster.Stage (recordingManager (fun _ => none) knownOnNode7) [] =
        Outcome.ret (some e, [])) ∧
    (∃ w, sampleCluster.stagedWorkloads (sampleNode "master" 1) = Outcome.ret w ∧
      sampleCluster.Stage (recordingManager (fun _ => none) knownOnNode7) [] =
        Outcome.ret ((recordingManager (fun _ => none) knownOnNode7).SetWorkloads
          w []) ∧
      sampleCluster.Stage (recordingManager (fun _ => none) knownOnNode7) [] =
        Outcome.ret (none, [w])) :=
  And.intro rfl (And.intro rfl (And.intro
    ((Stage_atomic dupCluster (sampleNode "a" 1) rfl
      (recordingManager (fun _ => none) knownOnNode7) []
      (fun _ => none) knownOnNode7).1 (by decide))
    ((Stage_atomic sampleCluster (sampleNode "master" 1) rfl
      (recordingManager (fun _ => none) knownOnNode7) []
      (fun _ => none) knownOnNode7).2 (by decide))))

/-- C5 (as stated) fails: in a cluster with a nil master pointer whose two workers
are both called `a`, two node names coincide, yet `Stage` returns no error: it
panics in `validateNames`, as it does for the nil-master cluster with distinct
worker names. -/
theorem Stage_panics_without_master :
    headlessDupCluster.Master = none ∧
    ¬ (headlessDupCluster.Workers.map (fun w => w.Name)).Nodup ∧
    headlessDupCluster.validateNames = Outcome.panic ∧
    headlessDupCluster.Stage (recordingManager (fun _ => none) knownOnNode7) [] =
      Outcome.panic ∧
    (headlessCluster.Workers.map (fun w => w.Name)).Nodup ∧
    headlessCluster.Stage (recordingManager (fun _ => none) knownOnNode7) [] =
      Outcome.panic :=
  ⟨rfl, by decide, rfl, rfl, by decide, rfl⟩

/-- C3 fails on the code: in the cluster whose master `a` and worker `adisk` share
node 1, name validation passes, and the list staged for node 1 holds the name
`adisk` twice (the disk of the master and the machine of the worker). -/
theorem Stage_duplicate_workload_names :
    collidingCluster.validateNames = Outcome.ret none ∧
    stagedNames (collidingCluster.stagedWorkloads (sampleNode "a" 1)) 1 =
      ["adisk", "a", "adiskdisk", "adisk"] ∧
    ¬ (stagedNames (collidingCluster.stagedWorkloads (sampleNode "a" 1)) 1).Nodup ∧
    ∃ w, collidingCluster.stagedWorkloads (sampleNode "a" 1) = Outcome.ret w ∧
      collidingCluster.Stage (recordingManager (fun _ => none) knownOnNode7) [] =
        Outcome.ret (none, [w]) := by
  refine ⟨by decide, by decide, by decide, ?_⟩
  obtain ⟨w, hw⟩ := stagedWorkloads_ret collidingCluster (sampleNode "a" 1) rfl
  exact ⟨w, hw, Stage_of_valid collidingCluster (sampleNode "a" 1) rfl w (by decide) hw _ []⟩

/-! ## Gateway loaders -/

/-- C6: `LoadGatewayNameFromGrid` returns an error when `GetWorkload` fails, when
the result data does not decode as a gateway-proxy result, or when the workload
data is not a gateway-name payload; otherwise it returns, with a nil error, the
proxy whose FQDN is the domain name of the result and whose name, TLS flag and
backends are those of the workload data. -/
theorem LoadGatewayNameFromGrid_spec {σ : Type} (zos : Zos) (manager : DeploymentManager σ)
    (s : σ) (nodeID : Nat) (name : String) :
    (∀ wl err, manager.GetWorkload nodeID name s = (wl, some err) →
      ∃ e, LoadGatewayNameFromGrid zos manager s nodeID name = Outcome.ret ({}, some e)) ∧
    (∀ wl, manager.GetWorkload nodeID name s = (wl, none) →
      (∀ r, zos.UnmarshalGatewayProxyResult wl.Result.Data ≠ Except.ok r) →
      ∃ e, LoadGatewayNameFromGrid zos manager s nodeID name = Outcome.ret ({}, some e)) ∧
    (∀ wl, manager.GetWorkload nodeID name s = (wl, none) →
      (∀ d, zos.WorkloadData wl ≠ Except.ok (WorkloadData.gatewayName d)) →
      ∃ e, LoadGatewayNameFromGrid zos manager s nodeID name = Outcome.ret ({}, some e)) ∧
    (∀ wl r d, manager.GetWorkload nodeID name s = (wl, none) →
      zos.UnmarshalGatewayProxyResult wl.Result.Data = Except.ok r →
      zos.WorkloadData wl = Except.ok (WorkloadData.gatewayName d) →
      LoadGatewayNameFromGrid zos manager s nodeID name =
        Outcome.ret
          ({ Name := d.Name, TLSPassthrough := d.TLSPassthrough, Backends := d.Backends,
             FQDN := r.FQDN }, none)) := by
  refine ⟨?_, ?_, ?_, ?_⟩
  · intro wl err hget
    simp only [LoadGatewayNameFromGrid, hget]
    exact ⟨_, rfl⟩
  · intro wl hget hres
    unfold LoadGatewayNameFromGrid
    simp only [hget]
    cases hr : zos.UnmarshalGatewayProxyResult wl.Result.Data with
    | error e => exact ⟨_, rfl⟩
    | ok r => exact absurd hr (hres r)
  · intro wl hget hdata
    unfold LoadGatewayNameFromGrid
    simp only [hget]
    cases hr : zos.UnmarshalGatewayProxyResult wl.Result.Data with
    | error e => exact ⟨_, rfl⟩
    | ok r =>
      cases hd : zos.WorkloadData wl with
      | error e => exact ⟨_, rfl⟩
      | ok dataI =>
        cases dataI with
        | gatewayName d => exact absurd hd (hdata d)
        | zmount d => exact ⟨_, rfl⟩
        | publicIP d => exact ⟨_, rfl⟩
        | zmachine d => exact ⟨_, rfl⟩
        | gatewayFQDN d => exact ⟨_, rfl⟩
        | other tag => exact ⟨_, rfl⟩
  · intro wl r d hget hr hd
    simp only [LoadGatewayNameFromGrid, hget, hr, hd]

/-- Witness for C6: on the sample manager, loading `gw` from node 7 gives the
proxy with the resolved domain name, loading a missing workload, or the
gateway-FQDN workload, gives an error. -/
theorem LoadGatewayNameFromGrid_spec_witness :
    LoadGatewayNameFromGrid sampleZos gatewayManager [] 7 "gw" =
      Outcome.ret
        ({ Name := "name", TLSPassthrough := true, Backends := ["http://1.1.1.1"],
           FQDN := "name.gent01.dev" }, none) ∧
    (∃ e, LoadGatewayNameFromGrid sampleZos gatewayManager [] 8 "gw" =
      Outcome.ret ({}, some e)) ∧
    (∃ e, LoadGatewayNameFromGrid sampleZos gatewayManager [] 7 "fqdn" =
      Outcome.ret ({}, some e)) :=
  ⟨(LoadGatewayNameFromGrid_spec sampleZos gatewayManager [] 7 "gw").2.2.2
      nameProxyWorkload { FQDN := "name.gent01.dev" }
      { Name := "name", TLSPassthrough := true, Backends := ["http://1.1.1.1"] } rfl rfl rfl,
    (LoadGatewayNameFromGrid_spec sampleZos gatewayManager [] 8 "gw").1
      Workload.zero (GoError.new "workload not found") rfl,
    (LoadGatewayNameFromGrid_spec sampleZos gatewayManager [] 7 "fqdn").2.2.1
      fqdnProxyWorkload rfl (fun d h => by
        have hd : sampleZos.WorkloadData fqdnProxyWorkload =
            Except.ok (WorkloadData.gatewayFQDN
              { FQDN := "a.b.com", TLSPassthrough := false, Backends := ["http://1.1.1.1"] }) :=
          rfl
        rw [hd] at h
        cases h)⟩

/-- C9 fails on the code: for the gateway-name workload `gw`, which `GetWorkload`
returns without error, `GatewayFQDNProxyFromZosWorkload` panics, whereas
`LoadGatewayNameFromGrid` answers the gateway-FQDN workload with an error; on the
gateway-FQDN workload itself the function returns the proxy. -/
theorem GatewayFQDNProxyFromZosWorkload_panics :
    gatewayManager.GetWorkload 7 "gw" [] = (nameProxyWorkload, none) ∧
    GatewayFQDNProxyFromZosWorkload sampleZos gatewayManager [] 7 "gw" = Outcome.panic ∧
    LoadGatewayNameFromGrid sampleZos gatewayManager [] 7 "fqdn" =
      Outcome.ret ({}, some (GoError.new "couldn't cast workload data")) ∧
    GatewayFQDNProxyFromZosWorkload sampleZos gatewayManager [] 7 "fqdn" =
      Outcome.ret
        ({ NodeId := 7, Name := "fqdn", TLSPassthrough := false,
           Backends := ["http://1.1.1.1"], FQDN := "a.b.com" }, none) := by
  decide

/-! ## The deployer -/

theorem call_eq_ok (env : DeployerEnv) (node : Nat) (method : String) (body ack : Deployment)
    (attempt : Nat) (h : env.call node method body attempt = Except.ok ack) :
    ∃ twin, env.getNodeClient node = Except.ok twin ∧
      env.clientCall twin method body attempt = Except.ok ack := by
  unfold DeployerEnv.call at h
  cases hc : env.getNodeClient node with
  | error e => simp [hc] at h
  | ok twin =>
    cases hr : env.clientCall twin method body attempt with
    | error e => simp [hc, hr] at h
    | ok answer =>
      simp only [hc, hr, Except.ok.injEq] at h
      exact ⟨twin, rfl, h ▸ hr⟩

theorem pushDeployment_first_ok (env : DeployerEnv) (node twin : Nat) (method : String)
    (dl ack : Deployment) (attempt retries : Nat)
    (h : env.clientCall twin method dl attempt = Except.ok ack) :
    pushDeployment env node twin method dl attempt retries =
      ([Event.rpc node twin method], Except.ok ()) := by
  cases retries <;> simp [pushDeployment, nodeCall, h]

theorem pollResults_settled (env : DeployerEnv) (node twin : Nat) (sent got : Deployment)
    (attempt retries : Nat)
    (hget : env.clientCall twin getMethod sent attempt = Except.ok got)
    (hs : got.settled = true) :
    pollResults env node twin sent attempt retries =
      ([Event.rpc node twin getMethod], Except.ok got) := by
  cases retries <;> simp [pollResults, nodeCall, hget, hs]

theorem pushDeployment_events (env : DeployerEnv) (node twin : Nat) (method : String)
    (dl : Deployment) (retries : Nat) :
    ∀ attempt, ∃ k, 1 ≤ k ∧ k ≤ retries + 1 ∧
      (pushDeployment env node twin method dl attempt retries).1 =
        List.replicate k (Event.rpc node twin method) ∧
      ∀ i, i + 1 < k →
        ∃ e, env.clientCall twin method dl (attempt + i) =
          Except.error (CallError.transport e) := by
  induction retries with
  | zero =>
    intro attempt
    refine ⟨1, le_refl 1, le_refl 1, ?_, fun i hi => absurd hi (by omega)⟩
    unfold pushDeployment
    cases hc : env.clientCall twin method dl attempt <;> simp [nodeCall, hc]
  | succ r ih =>
    intro attempt
    unfold pushDeployment
    cases hc : env.clientCall twin method dl attempt with
    | ok answer =>
      exact ⟨1, le_refl 1, by omega, by simp [nodeCall, hc], fun i hi => absurd hi (by omega)⟩
    | error err =>
      cases err with
      | application e =>
        exact ⟨1, le_refl 1, by omega, by simp [nodeCall, hc], fun i hi => absurd hi (by omega)⟩
      | cancelled =>
        exact ⟨1, le_refl 1, by omega, by simp [nodeCall, hc], fun i hi => absurd hi (by omega)⟩
      | transport e =>
        obtain ⟨k, hk1, hk2, hev, hretry⟩ := ih (attempt + 1)
        refine ⟨k + 1, by omega, by omega, ?_, ?_⟩
        · simp only [nodeCall, hc, hev, List.replicate_succ]
        · intro i hi
          cases i with
          | zero => exact ⟨e, by simpa using hc⟩
          | succ j =>
            obtain ⟨e2, he2⟩ := hretry j (by omega)
            refine ⟨e2, ?_⟩
            rw [← he2]
            congr 1
            omega

theorem pollResults_events (env : DeployerEnv) (node twin : Nat) (sent : Deployment)
    (retries : Nat) :
    ∀ attempt, ∀ e ∈ (pollResults env node twin sent attempt retries).1,
      e = Event.rpc node twin getMethod := by
  induction retries with
  | zero =>
    intro attempt e he
    unfold pollResults at he
    cases hc : env.clientCall twin getMethod sent attempt with
    | error err => simpa [nodeCall, hc] using he
    | ok got =>
      by_cases hs : got.settled = true <;> simpa [nodeCall, hc, hs] using he
  | succ r ih =>
    intro attempt e he
    unfold pollResults at he
    cases hc : env.clientCall twin getMethod sent attempt with
    | error err =>
      cases err with
      | application e1 => simpa [nodeCall, hc] using he
      | cancelled => simpa [nodeCall, hc] using he
      | transport e1 =>
        simp only [nodeCall, hc, List.mem_cons] at he
        rcases he with he | he
        · exact he
        · exact ih (attempt + 1) e he
    | ok got =>
      by_cases hs : got.settled = true
      · simpa [nodeCall, hc, hs] using he
      · simp only [nodeCall, hc, hs, if_false, List.mem_cons, Bool.false_eq_true] at he
        rcases he with he | he
        · exact he
        · exact ih (attempt + 1) e he

theorem pushAndWait_events (env : DeployerEnv) (retries node twin : Nat) (method : String)
    (dl : Deployment) :
    ∃ k polls, 1 ≤ k ∧ k ≤ retries + 1 ∧
      (pushAndWait env retries node twin method dl).1 =
        List.replicate k (Event.rpc node twin method) ++ polls ∧
      (∀ e ∈ polls, e = Event.rpc node twin getMethod) ∧
      ∀ i, i + 1 < k →
        ∃ e, env.clientCall twin method dl i = Except.error (CallError.transport e) := by
  obtain ⟨k, hk1, hk2, hev, hretry⟩ := pushDeployment_events env node twin method dl retries 0
  have hretry0 : ∀ i, i + 1 < k →
      ∃ e, env.clientCall twin method dl i = Except.error (CallError.transport e) := by
    intro i hi
    obtain ⟨e, he⟩ := hretry i hi
    exact ⟨e, by simpa using he⟩
  unfold pushAndWait
  rcases hpush : pushDeployment env node twin method dl 0 retries with ⟨pushes, res⟩
  rw [hpush] at hev
  simp only at hev
  cases res with
  | error err => exact ⟨k, [], hk1, hk2, by simp [hev], by simp, hretry0⟩
  | ok u =>
    have hp := pollResults_events env node twin dl retries 0
    rcases hpoll : pollResults env node twin dl 0 retries with ⟨polls, pres⟩
    rw [hpoll] at hp
    cases pres with
    | error err => exact ⟨k, polls, hk1, hk2, by simp [hev], hp, hretry0⟩
    | ok got =>
      cases hv : env.validate dl got with
      | none => exact ⟨k, polls, hk1, hk2, by simp [hev, hv], hp, hretry0⟩
      | some err => exact ⟨k, polls, hk1, hk2, by simp [hev, hv], hp, hretry0⟩

theorem pushAndWait_ok (env : DeployerEnv) (retries node twin : Nat) (method : String)
    (dl ack got : Deployment)
    (hpush : env.clientCall twin method dl 0 = Except.ok ack)
    (hget : env.clientCall twin getMethod dl 0 = Except.ok got)
    (hs : got.settled = true) (hv : env.validate dl got = none) :
    (pushAndWait env retries node twin method dl).2 = Except.ok dl.ContractID := by
  unfold pushAndWait
  simp only [pushDeployment_first_ok env node twin method dl ack 0 retries hpush,
    pollResults_settled env node twin dl got 0 retries hget hs, hv]

theorem settled_of_all_ok (dl : Deployment)
    (h : ∀ w ∈ dl.Workloads, w.Result.State = ResultState.ok) : dl.settled = true := by
  unfold Deployment.settled
  rw [List.all_eq_true]
  intro w hw
  simp [h w hw]

theorem reconcileNode_fresh_ok (env : DeployerEnv) (identity : String) (retries node : Nat)
    (dl ack got : Deployment) (contractID : Nat)
    (hcreate : env.createNodeContract identity node (env.challengeHash (env.sign identity dl)) =
      Except.ok contractID)
    (hpush : env.call node deployMethod (sentDeployment env identity dl contractID) 0 =
      Except.ok ack)
    (hget : env.call node getMethod (sentDeployment env identity dl contractID) 0 =
      Except.ok got)
    (hok : ∀ w ∈ got.Workloads, w.Result.State = ResultState.ok)
    (hv : env.validate (sentDeployment env identity dl contractID) got = none) :
    (reconcileNode env identity retries node none dl).2 = Except.ok contractID := by
  obtain ⟨twin, hclient, hpush1⟩ := call_eq_ok env node _ _ ack 0 hpush
  obtain ⟨twin2, hclient2, hget1⟩ := call_eq_ok env node _ _ got 0 hget
  rw [hclient] at hclient2
  injection hclient2 with htw
  subst htw
  have h := pushAndWait_ok env retries node twin deployMethod
    (sentDeployment env identity dl contractID) ack got hpush1 hget1
    (settled_of_all_ok got hok) hv
  unfold sentDeployment at h
  simp only [reconcileNode, Option.filter, chainCreate, hcreate, deliver, resolveClient, hclient]
  exact h

theorem deployTasks_nil (env : DeployerEnv) (identity : String) (retries : Nat)
    (newDeployments : List (Nat × Deployment)) :
    deployTasks env identity retries [] newDeployments =
      newDeployments.map (reconcileTask env identity retries []) := by
  simp [deployTasks]

theorem filterMap_contract_of_ok (f : Nat × Deployment → NodeTask) (c : Nat → Nat)
    (l : List (Nat × Deployment))
    (h : ∀ p ∈ l, (f p).node = p.1 ∧ (f p).removal = false ∧ (f p).result = Except.ok (c p.1)) :
    (l.map f).filterMap NodeTask.contract = l.map (fun p => (p.1, c p.1)) ∧
    (l.map f).filterMap NodeTask.failure = [] := by
  induction l with
  | nil => exact ⟨rfl, rfl⟩
  | cons p rest ih =>
    obtain ⟨h1, h2, h3⟩ := h p (List.mem_cons_self _ _)
    obtain ⟨ih1, ih2⟩ := ih (fun q hq => h q (List.mem_cons_of_mem _ hq))
    have hc : NodeTask.contract (f p) = some (p.1, c p.1) := by
      simp [NodeTask.contract, h1, h2, h3]
    have hf : NodeTask.failure (f p) = none := by
      simp [NodeTask.failure, h3]
    constructor
    · rw [List.map_cons, List.filterMap_cons_some hc, ih1, List.map_cons]
    · rw [List.map_cons, List.filterMap_cons_none hf, ih2]

/-- C1 (as amended): with no prior deployment, when the contract creation of every
node `n` answers `c n`, every push succeeds, the get-deployment RPC answers a
deployment whose results are all ok, and the validator accepts it, `Deploy`
returns the map sending every node of `newDeployments` to `c n`, and a nil
error. -/
theorem Deploy_creates_all (env : DeployerEnv) (identity : String) (retries : Nat)
    (newDeployments : List (Nat × Deployment)) (c : Nat → Nat)
    (hcreate : ∀ p ∈ newDeployments,
      env.createNodeContract identity p.1 (env.challengeHash (env.sign identity p.2)) =
        Except.ok (c p.1))
    (hpush : ∀ p ∈ newDeployments, ∃ ack,
      env.call p.1 deployMethod (sentDeployment env identity p.2 (c p.1)) 0 =
        Except.ok ack)
    (hget : ∀ p ∈ newDeployments, ∃ got,
      env.call p.1 getMethod (sentDeployment env identity p.2 (c p.1)) 0 =
        Except.ok got ∧
      (∀ w ∈ got.Workloads, w.Result.State = ResultState.ok) ∧
      env.validate (sentDeployment env identity p.2 (c p.1)) got = none) :
    (Deploy env identity retries [] newDeployments).contracts =
      newDeployments.map (fun p => (p.1, c p.1)) ∧
    (Deploy env identity retries [] newDeployments).err = none := by
  have h := filterMap_contract_of_ok (reconcileTask env identity retries []) c newDeployments
    (by
      intro p hp
      obtain ⟨ack, hack⟩ := hpush p hp
      obtain ⟨got, hgot, hok, hv⟩ := hget p hp
      exact ⟨rfl, rfl,
        reconcileNode_fresh_ok env identity retries p.1 p.2 ack got (c p.1) (hcreate p hp)
          hack hgot hok hv⟩)
  unfold Deploy
  simp only [deployTasks_nil]
  exact ⟨h.1, by rw [h.2]; rfl⟩

/-- Witness for C1 (as amended): the run of `TestCreate`, with the permissive
validator, returns contracts 100 and 200 for nodes 10 and 20. -/
theorem Deploy_creates_all_witness :
    (∀ p ∈ newDls,
      (testEnv emptyValidator).createNodeContract "id" p.1
        ((testEnv emptyValidator).challengeHash ((testEnv emptyValidator).sign "id" p.2)) =
        Except.ok (if p.1 = 10 then 100 else 200)) ∧
    (Deploy (testEnv emptyValidator) "id" 3 [] newDls).contracts = [(10, 100), (20, 200)] ∧
    (Deploy (testEnv emptyValidator) "id" 3 [] newDls).err = none :=
  And.intro
    (by
      intro p hp
      simp only [newDls, List.mem_cons, List.mem_singleton, List.not_mem_nil, or_false] at hp
      rcases hp with rfl | rfl <;> rfl)
    (Deploy_creates_all (testEnv emptyValidator) "id" 3 newDls
      (fun n => if n = 10 then 100 else 200)
      (by
        intro p hp
        simp only [newDls, List.mem_cons, List.mem_singleton, List.not_mem_nil, or_false] at hp
        rcases hp with rfl | rfl <;> rfl)
      (by
        intro p hp
        simp only [newDls, List.mem_cons, List.mem_singleton, List.not_mem_nil, or_false] at hp
        rcases hp with rfl | rfl <;> exact ⟨_, rfl⟩)
      (by
        intro p hp
        simp only [newDls, List.mem_cons, List.mem_singleton, List.not_mem_nil, or_false] at hp
        rcases hp with rfl | rfl
        · exact ⟨_, rfl, by decide, rfl⟩
        · exact ⟨_, rfl, by decide, rfl⟩))

/-- C1 (as stated) fails: in the run of `TestCreate` with a validator that rejects
the returned results, the contracts 100 and 200 are created, both pushes succeed
and the get-deployment RPC answers deployments whose results are all ok, yet
`Deploy` returns an empty map and a non-nil error. -/
theorem Deploy_rejected_by_validator :
    (testEnv rejectingValidator).createNodeContract "id" 10
      ((testEnv rejectingValidator).challengeHash
        ((testEnv rejectingValidator).sign "id" deployment1)) = Except.ok 100 ∧
    (testEnv rejectingValidator).createNodeContract "id" 20
      ((testEnv rejectingValidator).challengeHash
        ((testEnv rejectingValidator).sign "id" deployment2)) = Except.ok 200 ∧
    (testEnv rejectingValidator).call 10 deployMethod
      (sentDeployment (testEnv rejectingValidator) "id" deployment1 100) 0 =
        Except.ok (sentDeployment (testEnv rejectingValidator) "id" deployment1 100) ∧
    (testEnv rejectingValidator).call 20 deployMethod
      (sentDeployment (testEnv rejectingValidator) "id" deployment2 200) 0 =
        Except.ok (sentDeployment (testEnv rejectingValidator) "id" deployment2 200) ∧
    ((testEnv rejectingValidator).call 10 getMethod
      (sentDeployment (testEnv rejectingValidator) "id" deployment1 100) 0).toOption.map
        (fun got => got.Workloads.map (fun w => w.Result.State)) = some [ResultState.ok] ∧
    ((testEnv rejectingValidator).call 20 getMethod
      (sentDeployment (testEnv rejectingValidator) "id" deployment2 200) 0).toOption.map
        (fun got => got.Workloads.map (fun w => w.Result.State)) = some [ResultState.ok] ∧
    (Deploy (testEnv rejectingValidator) "id" 3 [] newDls).contracts = [] ∧
    (Deploy (testEnv rejectingValidator) "id" 3 [] newDls).contracts ≠ [(10, 100), (20, 200)] ∧
    (Deploy (testEnv rejectingValidator) "id" 3 [] newDls).err =
      some [(10, GoError.new "validation rejected"), (20, GoError.new "validation rejected")] := by
  refine ⟨rfl, rfl, rfl, rfl, by decide, by decide, by decide, by decide, by decide⟩

theorem lookup_isSome_of_mem (l : List (Nat × Deployment)) (n : Nat) (dl : Deployment)
    (h : (n, dl) ∈ l) : (l.lookup n).isSome = true := by
  induction l with
  | nil => cases h
  | cons p rest ih =>
    obtain ⟨k, v⟩ := p
    by_cases hk : n = k
    · subst hk
      simp [List.lookup]
    · have hne : (n == k) = false := by simpa using hk
      rcases List.mem_cons.1 h with heq | hmem
      · exact absurd (congrArg Prod.fst heq) hk
      · simp only [List.lookup, hne]
        exact ih hmem

theorem filter_node_map (f : Nat × Deployment → NodeTask) (hf : ∀ p, (f p).node = p.1)
    (l : List (Nat × Deployment)) (n : Nat) (dl : Deployment)
    (hkeys : (l.map Prod.fst).Nodup) (h : (n, dl) ∈ l) :
    (l.map f).filter (fun t => decide (t.node = n)) = [f (n, dl)] := by
  induction l with
  | nil => cases h
  | cons p rest ih =>
    rw [List.map_cons, List.nodup_cons] at hkeys
    rcases List.mem_cons.1 h with heq | hmem
    · subst heq
      have hrest : (rest.map f).filter (fun t => decide (t.node = n)) = [] := by
        rw [List.filter_eq_nil_iff]
        intro t ht
        obtain ⟨q, hq, rfl⟩ := List.mem_map.1 ht
        have hne : q.1 ≠ n := fun hqn => hkeys.1 (List.mem_map.2 ⟨q, hq, hqn⟩)
        simpa [hf q] using hne
      rw [List.map_cons, List.filter_cons_of_pos (by simp [hf]), hrest]
    · have hne : p.1 ≠ n := fun hpn =>
        hkeys.1 (List.mem_map.2 ⟨(n, dl), hmem, hpn.symm⟩)
      rw [List.map_cons, List.filter_cons_of_neg (by simpa [hf p] using hne)]
      exact ih hkeys.2 hmem

theorem eventsFor_new_node (env : DeployerEnv) (identity : String) (retries : Nat)
    (oldDeployments newDeployments : List (Nat × Deployment)) (n : Nat) (dl : Deployment)
    (hkeys : (newDeployments.map Prod.fst).Nodup) (hmem : (n, dl) ∈ newDeployments) :
    (Deploy env identity retries oldDeployments newDeployments).eventsFor n =
      (reconcileNode env identity retries n (oldDeployments.lookup n) dl).1 := by
  have hrem : ((oldDeployments.filter (fun p => (newDeployments.lookup p.1).isNone)).map
      (removalTask env identity retries)).filter (fun t => decide (t.node = n)) = [] := by
    rw [List.filter_eq_nil_iff]
    intro t ht
    obtain ⟨q, hq, rfl⟩ := List.mem_map.1 ht
    have hq2 := (List.mem_filter.1 hq).2
    have hne : q.1 ≠ n := by
      intro hqn
      rw [hqn, Option.isNone_iff_eq_none] at hq2
      have hsome := lookup_isSome_of_mem newDeployments n dl hmem
      rw [hq2] at hsome
      cases hsome
    simpa [removalTask] using hne
  have hnew := filter_node_map (reconcileTask env identity retries oldDeployments)
    (fun _ => rfl) newDeployments n dl hkeys hmem
  unfold DeployResult.eventsFor Deploy deployTasks
  simp only [List.filter_append, hrem, hnew, List.nil_append, List.map_cons, List.map_nil,
    List.flatten, List.append_nil, reconcileTask]

theorem countP_pushes (n twin k : Nat) (polls : List Event)
    (hall : ∀ e ∈ polls, e = Event.rpc n twin getMethod) :
    (List.replicate k (Event.rpc n twin deployMethod) ++ polls).countP Event.isDeployPush = k := by
  induction k with
  | zero =>
    rw [List.replicate_zero, List.nil_append, List.countP_eq_zero]
    intro e he
    rw [hall e he]
    simp [Event.isDeployPush, getMethod, deployMethod]
  | succ j ih =>
    have hpush : (Event.rpc n twin deployMethod).isDeployPush = true := by
      simp [Event.isDeployPush]
    rw [List.replicate_succ, List.cons_append, List.countP_cons_of_pos _ _ hpush, ih]

theorem deliver_events_unresolved (env : DeployerEnv) (retries node : Nat) (method : String)
    (dl : Deployment) (err : GoError) (h : env.getNodeClient node = Except.error err) :
    (deliver env retries node method dl).1 = [Event.nodeClient node] := by
  simp [deliver, resolveClient, h]

theorem deliver_events_resolved (env : DeployerEnv) (retries node twin : Nat) (method : String)
    (dl : Deployment) (h : env.getNodeClient node = Except.ok twin) :
    (deliver env retries node method dl).1 =
      Event.nodeClient node :: (pushAndWait env retries node twin method dl).1 := by
  simp [deliver, resolveClient, h]

theorem reconcileNode_events_create_failed (env : DeployerEnv) (identity : String)
    (retries node : Nat) (old : Option Deployment) (dl : Deployment) (err : GoError)
    (hold : old.filter (fun o => decide (o.ContractID ≠ 0)) = none)
    (h : env.createNodeContract identity node (env.challengeHash (env.sign identity dl)) =
      Except.error err) :
    (reconcileNode env identity retries node old dl).1 =
      [Event.contractCreate identity node (env.challengeHash (env.sign identity dl))] := by
  unfold reconcileNode
  simp only [hold, chainCreate, h]

theorem reconcileNode_events_created (env : DeployerEnv) (identity : String)
    (retries node : Nat) (old : Option Deployment) (dl : Deployment) (contractID : Nat)
    (hold : old.filter (fun o => decide (o.ContractID ≠ 0)) = none)
    (h : env.createNodeContract identity node (env.challengeHash (env.sign identity dl)) =
      Except.ok contractID) :
    (reconcileNode env identity retries node old dl).1 =
      Event.contractCreate identity node (env.challengeHash (env.sign identity dl)) ::
        (deliver env retries node deployMethod (sentDeployment env identity dl contractID)).1 := by
  unfold reconcileNode sentDeployment
  simp only [hold, chainCreate, h]

/-- C2 (as amended): for a node of `newDeployments` with no prior contract, the
first call `Deploy` makes for the node is the contract creation, with the caller
identity, the node ID and the challenge hash of the signed deployment; it is the
only creation, and no contract update and no update-deployment RPC is issued for
the node. When the creation fails nothing follows; when it succeeds the node
client is resolved, and when that fails no RPC follows. Otherwise the
create-deployment push is issued `k` times in a row, with `1 ≤ k ≤ retries + 1`,
every attempt but the last having failed in transport, and only get-deployment
polls follow; the push is issued exactly once when its first attempt succeeds. -/
theorem Deploy_fresh_node_calls (env : DeployerEnv) (identity : String) (retries : Nat)
    (oldDeployments newDeployments : List (Nat × Deployment)) (n : Nat) (dl : Deployment)
    (hkeys : (newDeployments.map Prod.fst).Nodup) (hmem : (n, dl) ∈ newDeployments)
    (hprior : ∀ o, oldDeployments.lookup n = some o → o.ContractID = 0) :
    ∃ rest,
      (Deploy env identity retries oldDeployments newDeployments).eventsFor n =
        Event.contractCreate identity n (env.challengeHash (env.sign identity dl)) :: rest ∧
      (∀ e ∈ rest, e.isCreate = false) ∧
      (∀ e ∈ (Deploy env identity retries oldDeployments newDeployments).eventsFor n,
        e.isUpdate = false) ∧
      (∀ err,
        env.createNodeContract identity n (env.challengeHash (env.sign identity dl)) =
          Except.error err → rest = []) ∧
      (∀ contractID,
        env.createNodeContract identity n (env.challengeHash (env.sign identity dl)) =
          Except.ok contractID →
        ∃ rest2, rest = Event.nodeClient n :: rest2 ∧
          (∀ err, env.getNodeClient n = Except.error err → rest2 = []) ∧
          (∀ twin, env.getNodeClient n = Except.ok twin →
            ∃ k polls, 1 ≤ k ∧ k ≤ retries + 1 ∧
              rest2 = List.replicate k (Event.rpc n twin deployMethod) ++ polls ∧
              (∀ e ∈ polls, e = Event.rpc n twin getMethod) ∧
              ((Deploy env identity retries oldDeployments newDeployments).eventsFor n).countP
                Event.isDeployPush = k ∧
              (∀ i, i + 1 < k →
                ∃ e, env.clientCall twin deployMethod
                  (sentDeployment env identity dl contractID) i =
                    Except.error (CallError.transport e)) ∧
              ((∃ ack, env.clientCall twin deployMethod
                  (sentDeployment env identity dl contractID) 0 = Except.ok ack) → k = 1))) := by
  rw [eventsFor_new_node env identity retries oldDeployments newDeployments n dl hkeys hmem]
  have hfilter : (oldDeployments.lookup n).filter (fun o => decide (o.ContractID ≠ 0)) = none := by
    cases hl : oldDeployments.lookup n with
    | none => rfl
    | some o => simp [Option.filter, hprior o hl]
  cases hc : env.createNodeContract identity n (env.challengeHash (env.sign identity dl)) with
  | error err =>
    rw [reconcileNode_events_create_failed env identity retries n _ dl err hfilter hc]
    refine ⟨[], rfl, by simp, ?_, fun _ _ => rfl, ?_⟩
    · intro e he
      simp only [List.mem_singleton] at he
      subst he
      rfl
    · intro contractID h
      cases h
  | ok contractID =>
    rw [reconcileNode_events_created env identity retries n _ dl contractID hfilter hc]
    cases hcl : env.getNodeClient n with
    | error err =>
      rw [deliver_events_unresolved env retries n deployMethod _ err hcl]
      refine ⟨[Event.nodeClient n], rfl, ?_, ?_, ?_, ?_⟩
      · intro e he
        simp only [List.mem_singleton] at he
        subst he
        rfl
      · intro e he
        simp only [List.mem_cons, List.mem_singleton, List.not_mem_nil, or_false] at he
        rcases he with rfl | rfl <;> rfl
      · intro err2 h
        cases h
      · intro cid _
        refine ⟨[], rfl, fun _ _ => rfl, ?_⟩
        intro twin h
        cases h
    | ok twin =>
      rw [deliver_events_resolved env retries n twin deployMethod _ hcl]
      obtain ⟨k, polls, hk1, hk2, hev, hall, hretry⟩ :=
        pushAndWait_events env retries n twin deployMethod
          (sentDeployment env identity dl contractID)
      rw [hev]
      have hget_update : (Event.rpc n twin getMethod).isUpdate = false := by
        simp [Event.isUpdate, getMethod, updateMethod]
      have hpush_update : (Event.rpc n twin deployMethod).isUpdate = false := by
        simp [Event.isUpdate, deployMethod, updateMethod]
      have hmem_rest : ∀ e ∈ List.replicate k (Event.rpc n twin deployMethod) ++ polls,
          e = Event.rpc n twin deployMethod ∨ e = Event.rpc n twin getMethod := by
        intro e he
        rcases List.mem_append.1 he with he | he
        · exact Or.inl (List.eq_of_mem_replicate he)
        · exact Or.inr (hall e he)
      refine ⟨_, rfl, ?_, ?_, ?_, ?_⟩
      · intro e he
        rcases List.mem_cons.1 he with rfl | he
        · rfl
        · rcases hmem_rest e he with rfl | rfl <;> rfl
      · intro e he
        simp only [List.mem_cons] at he
        rcases he with rfl | rfl | he
        · rfl
        · rfl
        · rcases hmem_rest e he with rfl | rfl
          · exact hpush_update
          · exact hget_update
      · intro err h
        cases h
      · intro cid hcid
        injection hcid with hcid
        subst hcid
        refine ⟨_, rfl, ?_, ?_⟩
        · intro err h
          cases h
        · intro twin2 htw
          injection htw with htw
          subst htw
          refine ⟨k, polls, hk1, hk2, rfl, hall, ?_, hretry, ?_⟩
          · rw [List.countP_cons_of_neg _ _ (by simp [Event.isDeployPush]),
              List.countP_cons_of_neg _ _ (by simp [Event.isDeployPush])]
            exact countP_pushes n twin k polls hall
          · rintro ⟨ack, hack⟩
            by_contra hne
            obtain ⟨e, he⟩ := hretry 0 (by omega)
            rw [hack] at he
            cases he

/-- Witness for C2 (as amended): node 10 in the run of `TestCreate` when the first
push fails in transport: the calls are the creation, the client resolution, two
pushes and one poll. -/
theorem Deploy_fresh_node_calls_witness :
    (newDls.map Prod.fst).Nodup ∧ (10, deployment1) ∈ newDls ∧
    (Deploy flakyPushEnv "id" 3 [] newDls).eventsFor 10 =
      [Event.contractCreate "id" 10 "name:gateway-name-proxy;", Event.nodeClient 10,
        Event.rpc 10 13 deployMethod, Event.rpc 10 13 deployMethod,
        Event.rpc 10 13 getMethod] ∧
    ∃ rest,
      (Deploy flakyPushEnv "id" 3 [] newDls).eventsFor 10 =
        Event.contractCreate "id" 10
          (flakyPushEnv.challengeHash (flakyPushEnv.sign "id" deployment1)) :: rest ∧
      (∀ e ∈ rest, e.isCreate = false) ∧
      (∀ e ∈ (Deploy flakyPushEnv "id" 3 [] newDls).eventsFor 10, e.isUpdate = false) ∧
      (∀ err,
        flakyPushEnv.createNodeContract "id" 10
          (flakyPushEnv.challengeHash (flakyPushEnv.sign "id" deployment1)) =
          Except.error err → rest = []) ∧
      (∀ contractID,
        flakyPushEnv.createNodeContract "id" 10
          (flakyPushEnv.challengeHash (flakyPushEnv.sign "id" deployment1)) =
          Except.ok contractID →
        ∃ rest2, rest = Event.nodeClient 10 :: rest2 ∧
          (∀ err, flakyPushEnv.getNodeClient 10 = Except.error err → rest2 = []) ∧
          (∀ twin, flakyPushEnv.getNodeClient 10 = Except.ok twin →
            ∃ k polls, 1 ≤ k ∧ k ≤ 3 + 1 ∧
              rest2 = List.replicate k (Event.rpc 10 twin deployMethod) ++ polls ∧
              (∀ e ∈ polls, e = Event.rpc 10 twin getMethod) ∧
              ((Deploy flakyPushEnv "id" 3 [] newDls).eventsFor 10).countP
                Event.isDeployPush = k ∧
              (∀ i, i + 1 < k →
                ∃ e, flakyPushEnv.clientCall twin deployMethod
                  (sentDeployment flakyPushEnv "id" deployment1 contractID) i =
                    Except.error (CallError.transport e)) ∧
              ((∃ ack, flakyPushEnv.clientCall twin deployMethod
                  (sentDeployment flakyPushEnv "id" deployment1 contractID) 0 =
                    Except.ok ack) → k = 1))) :=
  And.intro (by decide) (And.intro (by decide) (And.intro (by decide)
    (Deploy_fresh_node_calls flakyPushEnv "id" 3 [] newDls 10 deployment1
      (by decide) (by decide) (fun o h => by cases h))))

/-- C2 (as stated) fails: for node 10 of `TestCreate`, which has no prior
deployment, the create-deployment push is issued zero times when the chain
refuses the contract creation, zero times when the node client does not resolve,
and twice when the creation succeeds and the first push fails in transport. -/
theorem Deploy_push_not_exactly_once :
    (Deploy failingChainEnv "id" 3 [] newDls).eventsFor 10 =
      [Event.contractCreate "id" 10 "name:gateway-name-proxy;"] ∧
    ((Deploy failingChainEnv "id" 3 [] newDls).eventsFor 10).countP Event.isDeployPush = 0 ∧
    (Deploy noClientEnv "id" 3 [] newDls).eventsFor 10 =
      [Event.contractCreate "id" 10 "name:gateway-name-proxy;", Event.nodeClient 10] ∧
    ((Deploy noClientEnv "id" 3 [] newDls).eventsFor 10).countP Event.isDeployPush = 0 ∧
    (Deploy flakyPushEnv "id" 3 [] newDls).eventsFor 10 =
      [Event.contractCreate "id" 10 "name:gateway-name-proxy;", Event.nodeClient 10,
        Event.rpc 10 13 "zos.deployment.deploy", Event.rpc 10 13 "zos.deployment.deploy",
        Event.rpc 10 13 "zos.deployment.get"] ∧
    ((Deploy flakyPushEnv "id" 3 [] newDls).eventsFor 10).countP Event.isDeployPush = 2 ∧
    (Deploy flakyPushEnv "id" 3 [] newDls).contracts = [(10, 100), (20, 200)] := by
  decide

end Grid3
